import Mathlib

/-!
# L2PP connection rendering (`plugins/controller/networkservice_l2pp.go`)

A shallow embedding of `RenderConnL2PP`, `renderConnL2PPSameVnf`,
`renderConnL2PPSameNode` and `renderConnL2PPInterNode`.

Conventions of the embedding
* A Go pointer `*controller.Interface` is an `Option Interface`; dereferencing
  `none` (a nil pointer) and indexing a slice out of range give the outcome
  `Outcome.panic`.
* The mutable data reachable from the manager (status messages and rendered
  entries of the network service, the interface states of the RAM cache) is the
  record `World`, passed explicitly.
* Functions of the repository that the file calls but does not define are
  fields of `Env`.  The stateful ones take and return a `World`.
* Every call of a renderer, of a stateful collaborator, of the label lookup and of the
  overlay registry is recorded in a ghost log `St.trace`, so that "is invoked" and "is
  not invoked" can be stated.  The lookups of the two resolution loops are not logged.
* An error value built by `fmt.Errorf(msg)` is represented by its argument `msg`, a
  collaborator's error by its text.
* The assignment `netPodInterfaces[i].Parent = x` writes through the pointer; the
  embedding stores the updated copy in slot `i`.  The renderers read the slots only; it
  is assumed that the two slots do not share one interface object to which different
  parents are written (each lookup returns an object of the pod or host it is asked
  about).
-/

namespace L2PP

/-! ## Data model -/

/-- The fields of `controller.Interface` read or written by the renderers. -/
structure Interface where
  Name : String
  IfType : String
  Parent : String
deriving DecidableEq, Repr

/-- The value type `controller.NetworkPodToNodeMap`; its zero value has two empty strings. -/
structure NetworkPodToNodeMap where
  Pod : String
  Node : String
deriving DecidableEq, Repr

/-- The fields of `controller.Connection` used by the L2PP renderer. -/
structure Connection where
  PodInterfaces : List String
  NodeInterfaces : List String
  NodeInterfaceLabels : List String
  NetworkNodeOverlayName : String
  ConnMethod : String
deriving DecidableEq, Repr

/-- The metadata block shared by the controller objects. -/
structure MetaDataType where
  Name : String
deriving DecidableEq, Repr

/-- The immutable part of `controller.NetworkService` used here; its status lives in `World`. -/
structure NetworkService where
  Metadata : MetaDataType
deriving DecidableEq, Repr

/-- The two fields of the overlay spec on which `renderConnL2PPInterNode` dispatches. -/
structure NetworkNodeOverlaySpec where
  ConnectionType : String
  ServiceMeshType : String
deriving DecidableEq, Repr

/-- The overlay definition `controller.NetworkNodeOverlay`. -/
structure NetworkNodeOverlay where
  Metadata : MetaDataType
  Spec : NetworkNodeOverlaySpec
deriving DecidableEq, Repr

/-- The runtime state of one interface in `ramCache.InterfaceStates`. -/
structure InterfaceStatus where
  MemifID : Nat
deriving DecidableEq, Repr

/-- Modelled from the spec: the configuration entries of the low-level builder, whose type
is not declared in this file.  `xconnect` is the one-directional cross-connect returned by
`vppagent.ConstructXConnect`; `other` stands for every entry made by a collaborator. -/
inductive KVType where
  | xconnect (vppAgent rxIf txIf : String)
  | other (key : String)
deriving DecidableEq, Repr

/-- Modelled from the spec: `vppagent.ConstructXConnect`, the builder of a one-directional
cross-connect entry on a host from one interface to another. -/
def ConstructXConnect (vppAgent rxIf txIf : String) : KVType :=
  KVType.xconnect vppAgent rxIf txIf

/-- Modelled from the spec: the constant `controller.IfTypeMemif`, the fast-path-capable
(shared-memory) interface type. -/
def IfTypeMemif : String := "memif"

/-- Modelled from the spec: the constant `controller.ConnMethodDirect`, the default
realization method. -/
def ConnMethodDirect : String := "direct"

/-- Modelled from the spec: the constant `controller.NetworkNodeOverlayConnectionTypeVxlan`,
the tunnel-based transport. -/
def NetworkNodeOverlayConnectionTypeVxlan : String := "vxlan"

/-- Modelled from the spec: the constant `controller.NetworkNodeOverlayTypeMesh`, the
full-mesh topology. -/
def NetworkNodeOverlayTypeMesh : String := "mesh"

/-- Modelled from the spec: the constant `controller.NetworkNodeOverlayTypeHubAndSpoke`. -/
def NetworkNodeOverlayTypeHubAndSpoke : String := "hub_and_spoke"

/-- The mutable state a render call can touch: `ns.Status` (messages and rendered
entries, the latter as the sequence of `(key, entry)` appends) and the interface states of
the RAM cache (a map from `parent/name` to a status record held by pointer). -/
structure World where
  statusMsgs : List String
  RenderedVppAgentEntries : List (String × KVType)
  InterfaceStates : List (String × InterfaceStatus)
deriving DecidableEq, Repr

/-- The ghost log: one entry per call of a collaborator or of a renderer. -/
inductive Call where
  | FindInterfacesForThisLabelInNode (node : String) (labels : List String)
  | NetworkNodeOverlayR (name : String)
  | renderConnL2PPSameNode (vppAgent : String) (ifs : List (Option Interface))
      (types : List String)
  | renderConnL2PPSameVnf (ifs : List (Option Interface))
  | renderConnL2PPInterNode (nno : NetworkNodeOverlay) (ifs : List (Option Interface))
      (p2nArray : List NetworkPodToNodeMap) (types : List String)
  | RenderConnDirectInterPodMemifPair (ifs : List (Option Interface)) (ifType : String)
  | RenderConnInterfacePair (vppAgent : String) (iface : Option Interface) (ifType : String)
  | RenderTxnAddVppEntriesToTxn (key : String) (kv : KVType)
  | renderConnL2PPVxlanMesh (nno : NetworkNodeOverlay) (ifs : List (Option Interface))
      (p2nArray : List NetworkPodToNodeMap) (xconn : List (List String))
deriving DecidableEq, Repr

/-- What a render function did: it returned nil, returned an error, or panicked. -/
inductive Outcome where
  | ok
  | error (msg : String)
  | panic
deriving DecidableEq, Repr

/-- The threaded state: the mutable world and the ghost log. -/
structure St where
  world : World
  trace : List Call
deriving DecidableEq, Repr

/-- The collaborators of the renderer: the lookups of the RAM cache and of the managers,
and the stateful helpers defined elsewhere in the package. -/
structure Env where
  /-- The constant `ModelTypeNetworkService`, the kind prefix of the rendering key. -/
  ModelTypeNetworkService : String
  /-- The function `ConnPodInterfaceNames`: a workload reference as (pod, interface). -/
  ConnPodInterfaceNames : String → String × String
  /-- The function `NodeInterfaceNames`: a host reference as (node, interface). -/
  NodeInterfaceNames : String → String × String
  /-- The map `ctlrPlugin.ramCache.NetworkPodToNodeMap`. -/
  NetworkPodToNodeMap : String → Option L2PP.NetworkPodToNodeMap
  /-- The second result of `NetworkNodeMgr.HandleCRUDOperationR`. -/
  NetworkNodeExists : String → Bool
  /-- The method `findNetworkPodAndInterfaceInList` applied to the service and its pod
  list `ns.Spec.NetworkPods`: pod name and interface name give the interface and the pod
  type. -/
  findNetworkPodAndInterfaceInList : String → String → Option Interface × String
  /-- The method `NetworkNodeMgr.FindInterfaceInNode`. -/
  FindInterfaceInNode : String → String → Option Interface × String
  /-- The method `NetworkNodeMgr.FindInterfacesForThisLabelInNode`. -/
  FindInterfacesForThisLabelInNode :
    String → List String → List (Option Interface) × List String
  /-- The method `NetworkNodeOverlayMgr.HandleCRUDOperationR`. -/
  NetworkNodeOverlayR : String → Option NetworkNodeOverlay
  /-- The method `RenderConnInterfacePair`: service, host, connection, interface, type and
  an empty hint give an interface name or an error. -/
  RenderConnInterfacePair :
    World → NetworkService → String → Connection → Option Interface → String →
      Except String String × World
  /-- The method `RenderConnDirectInterPodMemifPair`; `some e` is a returned error. -/
  RenderConnDirectInterPodMemifPair :
    World → NetworkService → List (Option Interface) → String → Option String × World
  /-- The method `NetworkNodeOverlayMgr.renderConnL2PPVxlanMesh`; `some e` is a returned error. -/
  renderConnL2PPVxlanMesh :
    World → NetworkNodeOverlay → NetworkService → Connection → Nat →
      List (Option Interface) →
      List L2PP.NetworkPodToNodeMap → List (List String) → Option String × World

/-! ## Small helpers -/

/-- Record a call in the ghost log. -/
def St.log (st : St) (c : Call) : St :=
  { st with trace := st.trace ++ [c] }

/-- Modelled from the spec: `AppendStatusMsg`, which accumulates a diagnostic on the status
of the owning service. -/
def AppendStatusMsg (st : St) (msg : String) : St :=
  { st with world := { st.world with statusMsgs := st.world.statusMsgs ++ [msg] } }

/-- Modelled from the spec: `RenderTxnAddVppEntriesToTxn`, which accumulates an entry under
the key of the owning service. -/
def RenderTxnAddVppEntriesToTxn (st : St) (key : String) (kv : KVType) : St :=
  { world := { st.world with
      RenderedVppAgentEntries := st.world.RenderedVppAgentEntries ++ [(key, kv)] },
    trace := st.trace ++ [Call.RenderTxnAddVppEntriesToTxn key kv] }

/-- The element `ifs[i]` of a slice of pointers, `none` when nil or out of range. -/
def getIf (ifs : List (Option Interface)) (i : Nat) : Option Interface :=
  (ifs.get? i).join

/-- The Go expression `^i&1`, read as `(^i)&1`: on two's-complement integers `^i` is
`-i-1`, and `x&1` is the remainder of `x` modulo 2 (0 or 1, also for negative `x`). -/
def notAnd1 (i : Nat) : Nat :=
  Int.toNat ((-(Int.ofNat i) - 1) % 2)

/-- The formatting of a `[]string` by the verb `%v`. -/
def fmtStrings (l : List String) : String :=
  "[" ++ " ".intercalate l ++ "]"

/-- The lookup `InterfaceStates[key]`. -/
def getState : List (String × InterfaceStatus) → String → Option InterfaceStatus
  | [], _ => none
  | (k, v) :: rest, key => if k = key then some v else getState rest key

/-- The assignment `InterfaceStates[key].MemifID = id` through the stored pointer. -/
def setMemifID : List (String × InterfaceStatus) → String → Nat →
    List (String × InterfaceStatus)
  | [], _, _ => []
  | (k, v) :: rest, key, id =>
    (k, if k = key then { v with MemifID := id } else v) :: setMemifID rest key id

/-- The field `p2nArray[i].Node` of the two-element placement array. -/
def nodeAt (p2nArray : List NetworkPodToNodeMap) (i : Nat) : String :=
  match p2nArray.get? i with
  | some p2n => p2n.Node
  | none => ""

/-- The result of a render function: what happened and the state it left. -/
structure Result where
  outcome : Outcome
  st : St
deriving DecidableEq, Repr

/-! ## `RenderConnL2PP`: the local variables and the resolution loops -/

/-- The local variables of `RenderConnL2PP`. -/
structure Locals where
  p2nArray : List NetworkPodToNodeMap
  netPodInterfaces : List (Option Interface)
  networkPodTypes : List String
  allPodsAssignedToNodes : Bool
  staticNodesInInterfacesSpecified : Bool
  ifIndex : Nat
deriving DecidableEq, Repr

/-- The values of the local variables at line 42, before the first loop. -/
def Locals.init : Locals :=
  { p2nArray := [⟨"", ""⟩, ⟨"", ""⟩],
    netPodInterfaces := [none, none],
    networkPodTypes := ["", ""],
    allPodsAssignedToNodes := true,
    staticNodesInInterfacesSpecified := false,
    ifIndex := 0 }

/-- A stage of `RenderConnL2PP` either falls through to the next statement or returns. -/
inductive Flow where
  | next (l : Locals) (st : St)
  | ret (o : Outcome) (st : St)
deriving DecidableEq, Repr

/-- The message of lines 48, 85 and 113. -/
def tooManySegmentsMsg : String :=
  "Too many connection segments specified for a l2pp connection"

/-- The message of line 57. -/
def notMappedMsg (i : Nat) (connPodInterface : String) : String :=
  "connection segment " ++ toString i ++ ": " ++ connPodInterface ++
    ", network pod not mapped to a node in network_pod_to_node_map"

/-- The message of line 65. -/
def nonExistantHostMsg (i : Nat) (connPodInterface node : String) : String :=
  "connection segment " ++ toString i ++ ": " ++ connPodInterface ++
    ", network pod references non existant host: " ++ node

/-- The message of line 104. -/
def placementIncompleteMsg (ns : NetworkService) : String :=
  "network-service: " ++ ns.Metadata.Name ++
    ", not all pods in this connection are mapped to nodes"

/-- The message of line 119. -/
def needOneInterfaceMsg (ns : NetworkService) : String :=
  "network service: " ++ ns.Metadata.Name ++
    ", need 1 interface in conn and  1 nodeInterface label: incorrect config"

/-- The message of line 127. -/
def ambiguousLabelMsg (ns : NetworkService) (labels : List String) : String :=
  "network service: " ++ ns.Metadata.Name ++ ", nodeLabels " ++ fmtStrings labels ++
    ": must match only 1 node interface: incorrect config"

/-- The message of line 146. -/
def hostMismatchMsg (ns : NetworkService) (node0 node1 : String) : String :=
  "netwrok service: " ++ ns.Metadata.Name ++ ", nodes " ++ node0 ++ "/" ++ node1 ++
    " must be the same"

/-- The message of line 156. -/
def missingOverlayMsg (ns : NetworkService) (if0 if1 : Interface) : String :=
  "network-service: " ++ ns.Metadata.Name ++ ", " ++ if0.Parent ++ "/" ++ if0.Name ++
    " to " ++ if1.Parent ++ "/" ++ if1.Name ++ " no node overlay specified"

/-- The message of line 167. -/
def unknownOverlayMsg (ns : NetworkService) (if0 if1 : Interface) (overlay : String) :
    String :=
  "network-service: " ++ ns.Metadata.Name ++ ", " ++ if0.Parent ++ "/" ++ if0.Name ++
    " to " ++ if1.Parent ++ "/" ++ if1.Name ++ " referencing a missing node overlay: " ++
    overlay

/-- The message of line 313. -/
def hubAndSpokeMsg (ns : NetworkService) (connIndex : Nat) (pod0 pod1 overlay : String) :
    String :=
  "vnf-service: " ++ ns.Metadata.Name ++ ", conn: " ++ toString connIndex ++ ", " ++ pod0 ++
    " to " ++ pod1 ++ " node overlay: " ++ overlay ++ " type not supported for L2PP"

/-- The message of line 323. -/
def notImplementedMsg (ns : NetworkService) (connIndex : Nat) (pod0 pod1 overlay : String) :
    String :=
  "vnf-service: " ++ ns.Metadata.Name ++ ", conn: " ++ toString connIndex ++ ", " ++ pod0 ++
    " to " ++ pod1 ++ " node overlay: " ++ overlay ++ " type not implemented"

/-- The body of the loop of lines 45-80, for the reference `connPodInterface` at index `i`:
it returns from the function, or goes on to the next reference (also on `continue`). -/
def podInterfaceStep (env : Env) (i : Nat) (connPodInterface : String) (l : Locals)
    (st : St) : Flow :=
  if 2 ≤ l.ifIndex then
    Flow.ret (Outcome.error tooManySegmentsMsg) (AppendStatusMsg st tooManySegmentsMsg)
  else
    match env.NetworkPodToNodeMap (env.ConnPodInterfaceNames connPodInterface).1 with
    | none =>
      Flow.next { l with allPodsAssignedToNodes := false }
        (AppendStatusMsg st (notMappedMsg i connPodInterface))
    | some p2n =>
      if p2n.Node = "" then
        Flow.next { l with allPodsAssignedToNodes := false }
          (AppendStatusMsg st (notMappedMsg i connPodInterface))
      else if env.NetworkNodeExists p2n.Node = false then
        Flow.next { l with allPodsAssignedToNodes := false }
          (AppendStatusMsg st (nonExistantHostMsg i connPodInterface p2n.Node))
      else
        match env.findNetworkPodAndInterfaceInList
            (env.ConnPodInterfaceNames connPodInterface).1
            (env.ConnPodInterfaceNames connPodInterface).2 with
        | (none, _) => Flow.ret Outcome.panic st
        | (some netPodInterface, networkPodType) =>
          Flow.next
            { l with
              p2nArray := l.p2nArray.set l.ifIndex p2n,
              netPodInterfaces :=
                l.netPodInterfaces.set l.ifIndex
                  (some { netPodInterface with
                    Parent := (env.ConnPodInterfaceNames connPodInterface).1 }),
              networkPodTypes := l.networkPodTypes.set l.ifIndex networkPodType,
              ifIndex := l.ifIndex + 1 }
            st

/-- The loop of lines 45-80 over `conn.PodInterfaces`, from index `i` on. -/
def podInterfacesLoop (env : Env) : Nat → List String → Locals → St → Flow
  | _, [], l, st => Flow.next l st
  | i, connPodInterface :: rest, l, st =>
    match podInterfaceStep env i connPodInterface l st with
    | Flow.ret o st1 => Flow.ret o st1
    | Flow.next l1 st1 => podInterfacesLoop env (i + 1) rest l1 st1

/-- The body of the loop of lines 82-101, for the reference `nodeInterface`. -/
def nodeInterfaceStep (env : Env) (nodeInterface : String) (l : Locals) (st : St) : Flow :=
  if 2 ≤ l.ifIndex then
    Flow.ret (Outcome.error tooManySegmentsMsg) (AppendStatusMsg st tooManySegmentsMsg)
  else
    match env.FindInterfaceInNode (env.NodeInterfaceNames nodeInterface).1
        (env.NodeInterfaceNames nodeInterface).2 with
    | (none, _) => Flow.ret Outcome.panic st
    | (some iface, nodeIfType) =>
      Flow.next
        { l with
          p2nArray :=
            l.p2nArray.set l.ifIndex
              { Pod := (env.NodeInterfaceNames nodeInterface).1,
                Node := (env.NodeInterfaceNames nodeInterface).1 },
          netPodInterfaces :=
            l.netPodInterfaces.set l.ifIndex
              (some { iface with Parent := (env.NodeInterfaceNames nodeInterface).1 }),
          networkPodTypes := l.networkPodTypes.set l.ifIndex nodeIfType,
          staticNodesInInterfacesSpecified := true,
          ifIndex := l.ifIndex + 1 }
        st

/-- The loop of lines 82-101 over `conn.NodeInterfaces`. -/
def nodeInterfacesLoop (env : Env) : List String → Locals → St → Flow
  | [], l, st => Flow.next l st
  | nodeInterface :: rest, l, st =>
    match nodeInterfaceStep env nodeInterface l st with
    | Flow.ret o st1 => Flow.ret o st1
    | Flow.next l1 st1 => nodeInterfacesLoop env rest l1 st1

/-- The statements of lines 110-138 on `conn.NodeInterfaceLabels`. -/
def nodeInterfaceLabelsStep (env : Env) (ns : NetworkService) (conn : Connection)
    (l : Locals) (st : St) : Flow :=
  if conn.NodeInterfaceLabels.length ≠ 0 then
    if 2 ≤ l.ifIndex then
      Flow.ret (Outcome.error tooManySegmentsMsg) (AppendStatusMsg st tooManySegmentsMsg)
    else if l.ifIndex ≠ 1 ∨ conn.NodeInterfaceLabels.length ≠ 1 then
      Flow.ret (Outcome.error (needOneInterfaceMsg ns))
        (AppendStatusMsg st (needOneInterfaceMsg ns))
    else if (env.FindInterfacesForThisLabelInNode (nodeAt l.p2nArray 0)
        conn.NodeInterfaceLabels).1.length ≠ 1 then
      Flow.ret (Outcome.error (ambiguousLabelMsg ns conn.NodeInterfaceLabels))
        (AppendStatusMsg
          (st.log (Call.FindInterfacesForThisLabelInNode (nodeAt l.p2nArray 0)
            conn.NodeInterfaceLabels))
          (ambiguousLabelMsg ns conn.NodeInterfaceLabels))
    else
      match getIf (env.FindInterfacesForThisLabelInNode (nodeAt l.p2nArray 0)
          conn.NodeInterfaceLabels).1 0,
        (env.FindInterfacesForThisLabelInNode (nodeAt l.p2nArray 0)
          conn.NodeInterfaceLabels).2.get? 0 with
      | some iface, some nodeIfType =>
        Flow.next
          { l with
            netPodInterfaces :=
              l.netPodInterfaces.set 1 (some { iface with Parent := nodeAt l.p2nArray 0 }),
            networkPodTypes := l.networkPodTypes.set 1 nodeIfType,
            p2nArray :=
              l.p2nArray.set 1 { Pod := nodeAt l.p2nArray 0, Node := nodeAt l.p2nArray 0 } }
          (st.log (Call.FindInterfacesForThisLabelInNode (nodeAt l.p2nArray 0)
            conn.NodeInterfaceLabels))
      | _, _ =>
        Flow.ret Outcome.panic
          (st.log (Call.FindInterfacesForThisLabelInNode (nodeAt l.p2nArray 0)
            conn.NodeInterfaceLabels))
  else
    Flow.next l st

/-! ## The renderers -/

/-- The loop of lines 186-192: one cross-connect per direction between the two interfaces
of the same pod. -/
def sameVnfLoop (env : Env) (ns : NetworkService) (ifs : List (Option Interface)) :
    List Nat → St → Result
  | [], st => ⟨Outcome.ok, st⟩
  | i :: rest, st =>
    match getIf ifs 0, getIf ifs i, getIf ifs (notAnd1 i) with
    | some if0, some a, some b =>
      sameVnfLoop env ns ifs rest
        (RenderTxnAddVppEntriesToTxn st
          (env.ModelTypeNetworkService ++ "/" ++ ns.Metadata.Name)
          (ConstructXConnect if0.Parent a.Name b.Name))
    | _, _, _ => ⟨Outcome.panic, st⟩

/-- The method `renderConnL2PPSameVnf` (lines 182-195). -/
def renderConnL2PPSameVnf (env : Env) (ns : NetworkService)
    (networkPodInterfaces : List (Option Interface)) (st : St) : Result :=
  sameVnfLoop env ns networkPodInterfaces [0, 1]
    (st.log (Call.renderConnL2PPSameVnf networkPodInterfaces))

/-- The check of lines 240-252: when both states exist and their identifiers are equal,
both are reset to 0. -/
def resetEqualMemifIDs (states : List (String × InterfaceStatus)) (key0 key1 : String) :
    List (String × InterfaceStatus) :=
  match getState states key0 with
  | some ifStatus0 =>
    match getState states key1 with
    | some ifStatus1 =>
      if ifStatus0.MemifID = ifStatus1.MemifID then
        setMemifID (setMemifID states key0 0) key1 0
      else states
    | none => states
  | none => states

/-- The statements of lines 233-253 at the head of the switch branch: for two memif
interfaces the identifier check is made on their states `parent/name`. -/
def memifIDCheck (if0 if1 : Interface) (st : St) : St :=
  if if0.IfType = if1.IfType ∧ if0.IfType = IfTypeMemif then
    { st with world := { st.world with
        InterfaceStates :=
          resetEqualMemifIDs st.world.InterfaceStates
            (if0.Parent ++ "/" ++ if0.Name) (if1.Parent ++ "/" ++ if1.Name) } }
  else st

/-- The loops of lines 257-264 and 291-298: one `RenderConnInterfacePair` per endpoint, on
the host `hostOf i`, storing the returned name in `xconn[i]`. -/
def interfacePairLoop (env : Env) (ns : NetworkService) (conn : Connection)
    (hostOf : Nat → String)
    (ifs : List (Option Interface)) (types : List String) :
    List Nat → List String → St → Except Outcome (List String) × St
  | [], xconn, st => (Except.ok xconn, st)
  | i :: rest, xconn, st =>
    match ifs.get? i, types.get? i with
    | some iface, some ty =>
      let st1 := st.log (Call.RenderConnInterfacePair (hostOf i) iface ty)
      match env.RenderConnInterfacePair st1.world ns (hostOf i) conn iface ty with
      | (Except.error err, w) => (Except.error (Outcome.error err), { st1 with world := w })
      | (Except.ok ifName, w) =>
        interfacePairLoop env ns conn hostOf ifs types rest (xconn.set i ifName)
          { st1 with world := w }
    | _, _ => (Except.error Outcome.panic, st)

/-- The loop of lines 266-272: one cross-connect per direction between the two
switch-facing interfaces. -/
def xconnLoop (env : Env) (ns : NetworkService) (vppAgent : String) (xconn : List String) :
    List Nat → St → Result
  | [], st => ⟨Outcome.ok, st⟩
  | i :: rest, st =>
    match xconn.get? i, xconn.get? (notAnd1 i) with
    | some a, some b =>
      xconnLoop env ns vppAgent xconn rest
        (RenderTxnAddVppEntriesToTxn st
          (env.ModelTypeNetworkService ++ "/" ++ ns.Metadata.Name)
          (ConstructXConnect vppAgent a b))
    | _, _ => ⟨Outcome.panic, st⟩

/-- The statements of lines 255-273: the two switch-facing interfaces are rendered, then
cross-connected in both directions. -/
def switchXConnects (env : Env) (ns : NetworkService) (vppAgent : String) (conn : Connection)
    (networkPodInterfaces : List (Option Interface)) (networkPodTypes : List String)
    (st : St) : Result :=
  match interfacePairLoop env ns conn (fun _ => vppAgent) networkPodInterfaces
      networkPodTypes [0, 1] ["", ""] st with
  | (Except.error o, st1) => ⟨o, st1⟩
  | (Except.ok xconn, st1) => xconnLoop env ns vppAgent xconn [0, 1] st1

/-- The method `renderConnL2PPSameNode` (lines 198-276). -/
def renderConnL2PPSameNode (env : Env) (ns : NetworkService) (vppAgent : String)
    (conn : Connection) (networkPodInterfaces : List (Option Interface))
    (networkPodTypes : List String) (st : St) : Result :=
  let st1 := st.log
    (Call.renderConnL2PPSameNode vppAgent networkPodInterfaces networkPodTypes)
  match getIf networkPodInterfaces 0, getIf networkPodInterfaces 1 with
  | some if0, some if1 =>
    if if0.Parent = if1.Parent ∧ if0.Name ≠ if1.Name then
      renderConnL2PPSameVnf env ns networkPodInterfaces st1
    else
      let memifConnType := if conn.ConnMethod = "" then ConnMethodDirect else conn.ConnMethod
      if if0.IfType = if1.IfType ∧ if0.IfType = IfTypeMemif ∧
          memifConnType = ConnMethodDirect then
        let st2 := st1.log
          (Call.RenderConnDirectInterPodMemifPair networkPodInterfaces IfTypeMemif)
        match env.RenderConnDirectInterPodMemifPair st2.world ns networkPodInterfaces
            IfTypeMemif with
        | (some err, w) => ⟨Outcome.error err, { st2 with world := w }⟩
        | (none, w) => ⟨Outcome.ok, { st2 with world := w }⟩
      else
        switchXConnects env ns vppAgent conn networkPodInterfaces networkPodTypes
          (memifIDCheck if0 if1 st1)
  | _, _ => ⟨Outcome.panic, st1⟩

/-- The method `renderConnL2PPInterNode` (lines 279-334). -/
def renderConnL2PPInterNode (env : Env) (ns : NetworkService) (conn : Connection)
    (connIndex : Nat) (networkPodInterfaces : List (Option Interface))
    (nno : NetworkNodeOverlay) (p2nArray : List NetworkPodToNodeMap)
    (networkPodTypes : List String) (st : St) : Result :=
  let st1 := st.log
    (Call.renderConnL2PPInterNode nno networkPodInterfaces p2nArray networkPodTypes)
  match interfacePairLoop env ns conn (fun i => nodeAt p2nArray i) networkPodInterfaces
      networkPodTypes [0, 1] ["", ""] st1 with
  | (Except.error o, st2) => ⟨o, st2⟩
  | (Except.ok xconn0, st2) =>
    if nno.Spec.ConnectionType = NetworkNodeOverlayConnectionTypeVxlan then
      if nno.Spec.ServiceMeshType = NetworkNodeOverlayTypeMesh then
        let st3 := st2.log
          (Call.renderConnL2PPVxlanMesh nno networkPodInterfaces p2nArray
            [xconn0, ["", ""]])
        match env.renderConnL2PPVxlanMesh st3.world nno ns conn connIndex
            networkPodInterfaces p2nArray [xconn0, ["", ""]] with
        | (some err, w) => ⟨Outcome.error err, { st3 with world := w }⟩
        | (none, w) => ⟨Outcome.ok, { st3 with world := w }⟩
      else if nno.Spec.ServiceMeshType = NetworkNodeOverlayTypeHubAndSpoke then
        match conn.PodInterfaces with
        | pod0 :: pod1 :: _ =>
          ⟨Outcome.error (hubAndSpokeMsg ns connIndex pod0 pod1 nno.Metadata.Name),
            AppendStatusMsg st2 (hubAndSpokeMsg ns connIndex pod0 pod1 nno.Metadata.Name)⟩
        | _ => ⟨Outcome.panic, st2⟩
      else
        ⟨Outcome.ok, st2⟩
    else
      match conn.PodInterfaces with
      | pod0 :: pod1 :: _ =>
        ⟨Outcome.error (notImplementedMsg ns connIndex pod0 pod1 nno.Metadata.Name),
          AppendStatusMsg st2 (notImplementedMsg ns connIndex pod0 pod1 nno.Metadata.Name)⟩
      | _ => ⟨Outcome.panic, st2⟩

/-! ## `RenderConnL2PP` -/

/-- The statements of lines 142-178: the choice of the renderer from the two resolved
endpoints. -/
def renderResolved (env : Env) (ns : NetworkService) (conn : Connection) (connIndex : Nat)
    (l : Locals) (st : St) : Result :=
  if nodeAt l.p2nArray 0 = nodeAt l.p2nArray 1 then
    renderConnL2PPSameNode env ns (nodeAt l.p2nArray 0) conn l.netPodInterfaces
      l.networkPodTypes st
  else if l.staticNodesInInterfacesSpecified = true then
    ⟨Outcome.error (hostMismatchMsg ns (nodeAt l.p2nArray 0) (nodeAt l.p2nArray 1)),
      AppendStatusMsg st (hostMismatchMsg ns (nodeAt l.p2nArray 0) (nodeAt l.p2nArray 1))⟩
  else if conn.NetworkNodeOverlayName = "" then
    match getIf l.netPodInterfaces 0, getIf l.netPodInterfaces 1 with
    | some if0, some if1 =>
      ⟨Outcome.error (missingOverlayMsg ns if0 if1),
        AppendStatusMsg st (missingOverlayMsg ns if0 if1)⟩
    | _, _ => ⟨Outcome.panic, st⟩
  else
    let st1 := st.log (Call.NetworkNodeOverlayR conn.NetworkNodeOverlayName)
    match env.NetworkNodeOverlayR conn.NetworkNodeOverlayName with
    | none =>
      match getIf l.netPodInterfaces 0, getIf l.netPodInterfaces 1 with
      | some if0, some if1 =>
        ⟨Outcome.error (unknownOverlayMsg ns if0 if1 conn.NetworkNodeOverlayName),
          AppendStatusMsg st1 (unknownOverlayMsg ns if0 if1 conn.NetworkNodeOverlayName)⟩
      | _, _ => ⟨Outcome.panic, st1⟩
    | some nno =>
      renderConnL2PPInterNode env ns conn connIndex l.netPodInterfaces nno l.p2nArray
        l.networkPodTypes st1

/-- The two loops of lines 45-101 in sequence, from the initial local variables. -/
def resolveRefs (env : Env) (conn : Connection) (st : St) : Flow :=
  match podInterfacesLoop env 0 conn.PodInterfaces Locals.init st with
  | Flow.ret o st1 => Flow.ret o st1
  | Flow.next l1 st1 => nodeInterfacesLoop env conn.NodeInterfaces l1 st1

/-- The method `RenderConnL2PP` (lines 26-179). -/
def RenderConnL2PP (env : Env) (ns : NetworkService) (conn : Connection) (connIndex : Nat)
    (st : St) : Result :=
  match resolveRefs env conn st with
  | Flow.ret o st2 => ⟨o, st2⟩
  | Flow.next l2 st2 =>
    if l2.allPodsAssignedToNodes = false then
      ⟨Outcome.error (placementIncompleteMsg ns),
        AppendStatusMsg st2 (placementIncompleteMsg ns)⟩
    else
      match nodeInterfaceLabelsStep env ns conn l2 st2 with
      | Flow.ret o st3 => ⟨o, st3⟩
      | Flow.next l3 st3 => renderResolved env ns conn connIndex l3 st3

/-! ## A concrete deployment, used to evaluate the renderer -/

/-- A reference `parent/interface` split at its first slash. -/
def splitSlash (s : String) : String × String :=
  (String.mk (s.data.takeWhile (fun c => c ≠ '/')),
    String.mk ((s.data.dropWhile (fun c => c ≠ '/')).drop 1))

/-- A deployment with two hosts: `podX` and `podY` are placed on `node1`, `podW` on `node2`,
`podV` on a host that is not registered, and any other pod is unplaced.  Every pod has the
interfaces `eth0` (veth) and `memif0`, `memif1` (memif); every host has `gig0`; on `node1`
the label `uplink` selects `gig0` and the label `dup` selects two interfaces.  The overlay
`ov1` is a vxlan mesh and `ov2` a vxlan hub-and-spoke.  The stateful helpers leave the world
as it is. -/
def demoEnv : Env :=
  { ModelTypeNetworkService := "NetworkService",
    ConnPodInterfaceNames := splitSlash,
    NodeInterfaceNames := splitSlash,
    NetworkPodToNodeMap := fun pod =>
      if pod = "podX" then some ⟨"podX", "node1"⟩
      else if pod = "podY" then some ⟨"podY", "node1"⟩
      else if pod = "podW" then some ⟨"podW", "node2"⟩
      else if pod = "podV" then some ⟨"podV", "node9"⟩
      else none,
    NetworkNodeExists := fun node => decide (node = "node1" ∨ node = "node2"),
    findNetworkPodAndInterfaceInList := fun _ ifName =>
      if ifName = "eth0" then (some ⟨"eth0", "veth", ""⟩, "vppcontainer")
      else if ifName = "memif0" ∨ ifName = "memif1" then
        (some ⟨ifName, "memif", ""⟩, "vppcontainer")
      else (none, ""),
    FindInterfaceInNode := fun _ ifName =>
      if ifName = "gig0" then (some ⟨"gig0", "ethernet", ""⟩, "host") else (none, ""),
    FindInterfacesForThisLabelInNode := fun node labels =>
      if node = "node1" ∧ labels = ["uplink"] then
        ([some ⟨"gig0", "ethernet", ""⟩], ["host"])
      else if node = "node1" ∧ labels = ["dup"] then
        ([some ⟨"gig0", "ethernet", ""⟩, some ⟨"gig1", "ethernet", ""⟩], ["host", "host"])
      else ([], []),
    NetworkNodeOverlayR := fun name =>
      if name = "ov1" then some ⟨⟨"ov1"⟩, ⟨"vxlan", "mesh"⟩⟩
      else if name = "ov2" then some ⟨⟨"ov2"⟩, ⟨"vxlan", "hub_and_spoke"⟩⟩
      else none,
    RenderConnInterfacePair := fun w _ host _ iface _ =>
      match iface with
      | some i => (Except.ok ("IF_" ++ host ++ "_" ++ i.Parent ++ "_" ++ i.Name), w)
      | none => (Except.error "nil interface", w),
    RenderConnDirectInterPodMemifPair := fun w _ _ _ => (none, w),
    renderConnL2PPVxlanMesh := fun w _ _ _ _ _ _ _ => (none, w) }

/-- The service `svcA`. -/
def svcA : NetworkService := ⟨⟨"svcA"⟩⟩

/-- The state before a first render: no message, no entry, no interface state, empty log. -/
def st0 : St := ⟨⟨[], [], []⟩, []⟩

/-! ## Vocabulary for the statements -/

/-- The state a stage ends in. -/
def Flow.st : Flow → St
  | Flow.next _ st => st
  | Flow.ret _ st => st

/-- Status messages aside, the second state is the first: nothing was logged, no entry was
rendered and no interface state was changed. -/
def SameButMsgs (st st1 : St) : Prop :=
  st1.trace = st.trace ∧
    st1.world.RenderedVppAgentEntries = st.world.RenderedVppAgentEntries ∧
    st1.world.InterfaceStates = st.world.InterfaceStates

/-- The placement of the pod of a workload reference, when the placement directory maps it
to a non-empty host that the host registry knows (the tests of lines 56 and 64). -/
def podPlacement (env : Env) (connPodInterface : String) : Option NetworkPodToNodeMap :=
  match env.NetworkPodToNodeMap (env.ConnPodInterfaceNames connPodInterface).1 with
  | none => none
  | some p2n =>
    if p2n.Node = "" then none
    else if env.NetworkNodeExists p2n.Node = false then none
    else some p2n

/-- The number of workload references that have a placement. -/
def placedCount (env : Env) (pods : List String) : Nat :=
  (pods.filter (fun ref => (podPlacement env ref).isSome)).length

/-- What the pod loop finds for a workload reference: whether the reference resolves to an
endpoint (its pod has a placement, the tests of lines 56 and 64), and whether the interface
lookup of line 73 returns an interface. -/
def podRefInfo (env : Env) (ref : String) : Bool × Bool :=
  ((podPlacement env ref).isSome,
    (env.findNetworkPodAndInterfaceInList (env.ConnPodInterfaceNames ref).1
      (env.ConnPodInterfaceNames ref).2).1.isSome)

/-- What the host loop finds for a host reference: the reference always resolves to an
endpoint, and the interface lookup of line 92 returns an interface or not. -/
def nodeRefInfo (env : Env) (ref : String) : Bool × Bool :=
  (true,
    (env.FindInterfaceInNode (env.NodeInterfaceNames ref).1
      (env.NodeInterfaceNames ref).2).1.isSome)

/-- The references of a connection in the order in which the two loops meet them (the
workload references, then the host references), each with what its loop finds for it. -/
def refInfos (env : Env) (conn : Connection) : List (Bool × Bool) :=
  conn.PodInterfaces.map (podRefInfo env) ++ conn.NodeInterfaces.map (nodeRefInfo env)

/-- The number of references of a list that resolve to an endpoint. -/
def resolvedCount (infos : List (Bool × Bool)) : Nat :=
  (infos.filter (fun s => s.1)).length

/-- Some reference is met after two endpoints are already resolved: the reference at some
position `k` has at least two resolving references before it.  This is the guard
`ifIndex >= 2` of lines 47 and 84 holding at an iteration. -/
def MetAfterTwoResolved (env : Env) (conn : Connection) : Prop :=
  ∃ k, k < (refInfos env conn).length ∧ 2 ≤ resolvedCount ((refInfos env conn).take k)

instance (env : Env) (conn : Connection) : Decidable (MetAfterTwoResolved env conn) := by
  unfold MetAfterTwoResolved
  exact inferInstance

/-- Every interface lookup that the two loops make returns an interface.  The lookup of the
reference at position `k` is made when the reference resolves and fewer than two references
before it resolve; no lookup is made for an unplaced pod, nor for a reference met after
two endpoints are resolved. -/
def MadeLookupsSucceed (env : Env) (conn : Connection) : Prop :=
  ∀ k, k < (refInfos env conn).length →
    ((refInfos env conn).getD k (false, false)).1 = true →
    resolvedCount ((refInfos env conn).take k) < 2 →
    ((refInfos env conn).getD k (false, false)).2 = true

instance (env : Env) (conn : Connection) : Decidable (MadeLookupsSucceed env conn) := by
  unfold MadeLookupsSucceed
  exact inferInstance

/-- The calls logged by a render call started in the state `st`. -/
def callsSince (st : St) (r : Result) : List Call :=
  r.st.trace.drop st.trace.length

/-! ## Concrete connections and resolution states of the deployment -/

/-- One workload reference and the label `uplink`. -/
def connUplink : Connection := ⟨["podX/eth0"], [], ["uplink"], "", ""⟩

/-- The local variables after the two loops on `connUplink`. -/
def localsUplink : Locals :=
  { p2nArray := [⟨"podX", "node1"⟩, ⟨"", ""⟩],
    netPodInterfaces := [some ⟨"eth0", "veth", "podX"⟩, none],
    networkPodTypes := ["vppcontainer", ""],
    allPodsAssignedToNodes := true,
    staticNodesInInterfacesSpecified := false,
    ifIndex := 1 }

/-- Two workload references on the same host and a label. -/
def connTwoPodsAndLabel : Connection :=
  ⟨["podX/eth0", "podY/eth0"], [], ["uplink"], "", ""⟩

/-- The local variables after the two loops on `connTwoPodsAndLabel`. -/
def localsTwoPods : Locals :=
  { p2nArray := [⟨"podX", "node1"⟩, ⟨"podY", "node1"⟩],
    netPodInterfaces := [some ⟨"eth0", "veth", "podX"⟩, some ⟨"eth0", "veth", "podY"⟩],
    networkPodTypes := ["vppcontainer", "vppcontainer"],
    allPodsAssignedToNodes := true,
    staticNodesInInterfacesSpecified := false,
    ifIndex := 2 }

/-- A workload reference placed on `node2` and a host reference on `node1`. -/
def connPodAndHost : Connection := ⟨["podW/eth0"], ["node1/gig0"], [], "", ""⟩

/-- The local variables after the two loops on `connPodAndHost`. -/
def localsPodAndHost : Locals :=
  { p2nArray := [⟨"podW", "node2"⟩, ⟨"node1", "node1"⟩],
    netPodInterfaces := [some ⟨"eth0", "veth", "podW"⟩, some ⟨"gig0", "ethernet", "node1"⟩],
    networkPodTypes := ["vppcontainer", "host"],
    allPodsAssignedToNodes := true,
    staticNodesInInterfacesSpecified := true,
    ifIndex := 2 }

/-- Two workload references on different hosts and the overlay `ov1`. -/
def connCrossHost : Connection := ⟨["podX/eth0", "podW/eth0"], [], [], "ov1", ""⟩

/-- Two memif interfaces of two pods on `node1`, realized by `method`. -/
def connMemif (method : String) : Connection :=
  ⟨["podX/memif0", "podY/memif0"], [], [], "", method⟩

/-- The two resolved endpoints of `connMemif`. -/
def ifsMemif : List (Option Interface) :=
  [some ⟨"memif0", "memif", "podX"⟩, some ⟨"memif0", "memif", "podY"⟩]

/-- The two resolved endpoints of a loopback inside `podX`. -/
def ifsLoopback : List (Option Interface) :=
  [some ⟨"memif0", "memif", "podX"⟩, some ⟨"memif1", "memif", "podX"⟩]

/-- A state in which both memif interfaces of `connMemif` hold the identifier 5. -/
def stMemif5 : St :=
  ⟨⟨[], [], [("podX/memif0", ⟨5⟩), ("podY/memif0", ⟨5⟩)]⟩, []⟩

/-- Two placed workload references and one host reference. -/
def connThreeRefs : Connection := ⟨["podX/eth0", "podY/eth0"], ["node1/gig0"], [], "", ""⟩

/-- A placed workload reference and one whose pod is on the unregistered host `node9`. -/
def connUnregisteredHost : Connection := ⟨["podX/eth0", "podV/eth0"], [], [], "", ""⟩

/-! ## Further concrete data of the deployment -/

/-- The deployment with one more overlay, `ov3`, a vxlan overlay whose topology `ring` is
neither the mesh nor the hub-and-spoke one. -/
def demoEnvRing : Env :=
  { demoEnv with
    NetworkNodeOverlayR := fun name =>
      if name = "ov3" then some ⟨⟨"ov3"⟩, ⟨"vxlan", "ring"⟩⟩
      else demoEnv.NetworkNodeOverlayR name }

/-- Two workload references on the same host, without label. -/
def connTwoPods : Connection := ⟨["podX/eth0", "podY/eth0"], [], [], "", ""⟩

/-- The two resolved endpoints of `connCrossHost`. -/
def ifsCrossHost : List (Option Interface) :=
  [some ⟨"eth0", "veth", "podX"⟩, some ⟨"eth0", "veth", "podW"⟩]

/-- The placements of the two endpoints of `connCrossHost`. -/
def p2nCrossHost : List NetworkPodToNodeMap := [⟨"podX", "node1"⟩, ⟨"podW", "node2"⟩]

/-- The overlay `ov1` of the deployment: vxlan transport, mesh topology. -/
def overlayMesh : NetworkNodeOverlay := ⟨⟨"ov1"⟩, ⟨"vxlan", "mesh"⟩⟩

/-- The overlay `ov2` of the deployment: vxlan transport, hub-and-spoke topology. -/
def overlayHubAndSpoke : NetworkNodeOverlay := ⟨⟨"ov2"⟩, ⟨"vxlan", "hub_and_spoke"⟩⟩

/-- An overlay with a transport that is not vxlan. -/
def overlayGre : NetworkNodeOverlay := ⟨⟨"ov4"⟩, ⟨"gre", "mesh"⟩⟩

/-- The overlay `ov3` of `demoEnvRing`: vxlan transport, topology `ring`. -/
def overlayRing : NetworkNodeOverlay := ⟨⟨"ov3"⟩, ⟨"vxlan", "ring"⟩⟩

/-- The two resolved endpoints of `connTwoPods`. -/
def ifsTwoPods : List (Option Interface) :=
  [some ⟨"eth0", "veth", "podX"⟩, some ⟨"eth0", "veth", "podY"⟩]

/-- A vxlan overlay whose topology is left empty. -/
def overlayNoTopology : NetworkNodeOverlay := ⟨⟨"ov5"⟩, ⟨"vxlan", ""⟩⟩

/-- The deployment in which every creation of an interface fails. -/
def demoEnvNoCreate : Env :=
  { demoEnv with
    RenderConnInterfacePair := fun w _ _ _ _ _ => (Except.error "creation failed", w) }

/-! ## The text of an error built by `fmt.Errorf` -/

/-- The text printed by `fmt.Errorf(format)` when it is called without operands, as
`RenderConnL2PP` calls it, for a format in which every `%` is directly followed by `%` or
by an ASCII lower-case letter: `%%` prints `%`, and a verb that finds no operand prints
`%!c(MISSING)` for its letter `c`; every other character is copied.  The result is `none`
for any other use of `%` (flags, width, precision, argument index, a final `%`), which
this definition does not cover. -/
def errorfText : List Char → Option (List Char)
  | [] => some []
  | c :: rest =>
    if c = '%' then
      match rest with
      | [] => none
      | v :: rest1 =>
        if v = '%' then (errorfText rest1).map (fun t => '%' :: t)
        else if v.isLower = true then
          (errorfText rest1).map (fun t => ['%', '!', v] ++ "(MISSING)".data ++ t)
        else none
    else (errorfText rest).map (fun t => c :: t)

/-- The service `a%b`, whose name holds a percent sign. -/
def svcPercent : NetworkService := ⟨⟨"a%b"⟩⟩

/-! ## Kinds of logged calls -/

/-- What a run adds to a state: the calls it logs, and the status messages and the
rendered entries it appends. -/
structure Delta where
  calls : List Call
  msgs : List String
  entries : List (String × KVType)

/-- The state `st1` is the state `st` with the additions `d` and with the same interface
states. -/
def Extends (st st1 : St) (d : Delta) : Prop :=
  st1.trace = st.trace ++ d.calls ∧
    st1.world.statusMsgs = st.world.statusMsgs ++ d.msgs ∧
    st1.world.RenderedVppAgentEntries = st.world.RenderedVppAgentEntries ++ d.entries ∧
    st1.world.InterfaceStates = st.world.InterfaceStates

theorem SameButMsgs.refl (st : St) : SameButMsgs st st := ⟨rfl, rfl, rfl⟩

theorem SameButMsgs.trans {a b c : St} (h1 : SameButMsgs a b) (h2 : SameButMsgs b c) :
    SameButMsgs a c :=
  ⟨h2.1.trans h1.1, h2.2.1.trans h1.2.1, h2.2.2.trans h1.2.2⟩

theorem sameButMsgs_append (st : St) (msg : String) :
    SameButMsgs st (AppendStatusMsg st msg) :=
  ⟨rfl, rfl, rfl⟩

/-- The four ways an iteration of the pod loop can end. -/
theorem podInterfaceStep_cases (env : Env) (i : Nat) (ref : String) (l : Locals) (st : St) :
    (2 ≤ l.ifIndex ∧
      podInterfaceStep env i ref l st =
        Flow.ret (Outcome.error tooManySegmentsMsg) (AppendStatusMsg st tooManySegmentsMsg)) ∨
    (l.ifIndex < 2 ∧ podPlacement env ref = none ∧
      ∃ msg, podInterfaceStep env i ref l st =
        Flow.next { l with allPodsAssignedToNodes := false } (AppendStatusMsg st msg)) ∨
    (l.ifIndex < 2 ∧ (podPlacement env ref).isSome = true ∧
      (env.findNetworkPodAndInterfaceInList (env.ConnPodInterfaceNames ref).1
        (env.ConnPodInterfaceNames ref).2).1 = none ∧
      podInterfaceStep env i ref l st = Flow.ret Outcome.panic st) ∨
    (l.ifIndex < 2 ∧
      ∃ p2n iface ty, podPlacement env ref = some p2n ∧
        env.findNetworkPodAndInterfaceInList (env.ConnPodInterfaceNames ref).1
          (env.ConnPodInterfaceNames ref).2 = (some iface, ty) ∧
        podInterfaceStep env i ref l st =
          Flow.next
            { l with
              p2nArray := l.p2nArray.set l.ifIndex p2n,
              netPodInterfaces :=
                l.netPodInterfaces.set l.ifIndex
                  (some { iface with Parent := (env.ConnPodInterfaceNames ref).1 }),
              networkPodTypes := l.networkPodTypes.set l.ifIndex ty,
              ifIndex := l.ifIndex + 1 }
            st) := by
  unfold podInterfaceStep podPlacement
  by_cases h2 : 2 ≤ l.ifIndex
  · left; simp [h2]
  · right
    have hlt : l.ifIndex < 2 := by omega
    cases hp : env.NetworkPodToNodeMap (env.ConnPodInterfaceNames ref).1 with
    | none => left; simp [h2, hlt]
    | some p2n =>
      by_cases hn : p2n.Node = ""
      · left; simp [h2, hlt, hn]
      · by_cases he : env.NetworkNodeExists p2n.Node = false
        · left; simp [h2, hlt, hn, he]
        · right
          rcases hf : env.findNetworkPodAndInterfaceInList (env.ConnPodInterfaceNames ref).1
            (env.ConnPodInterfaceNames ref).2 with ⟨_ | iface, ty⟩
          · left; simp [h2, hlt, hn, he]
          · right
            exact ⟨hlt, p2n, iface, ty, by simp [hn, he], rfl, by simp [h2, hn, he]⟩

/-- The three ways an iteration of the host loop can end. -/
theorem nodeInterfaceStep_cases (env : Env) (ref : String) (l : Locals) (st : St) :
    (2 ≤ l.ifIndex ∧
      nodeInterfaceStep env ref l st =
        Flow.ret (Outcome.error tooManySegmentsMsg) (AppendStatusMsg st tooManySegmentsMsg)) ∨
    (l.ifIndex < 2 ∧
      (env.FindInterfaceInNode (env.NodeInterfaceNames ref).1
        (env.NodeInterfaceNames ref).2).1 = none ∧
      nodeInterfaceStep env ref l st = Flow.ret Outcome.panic st) ∨
    (l.ifIndex < 2 ∧
      ∃ iface ty,
        env.FindInterfaceInNode (env.NodeInterfaceNames ref).1
          (env.NodeInterfaceNames ref).2 = (some iface, ty) ∧
        nodeInterfaceStep env ref l st =
          Flow.next
            { l with
              p2nArray :=
                l.p2nArray.set l.ifIndex
                  { Pod := (env.NodeInterfaceNames ref).1,
                    Node := (env.NodeInterfaceNames ref).1 },
              netPodInterfaces :=
                l.netPodInterfaces.set l.ifIndex
                  (some { iface with Parent := (env.NodeInterfaceNames ref).1 }),
              networkPodTypes := l.networkPodTypes.set l.ifIndex ty,
              staticNodesInInterfacesSpecified := true,
              ifIndex := l.ifIndex + 1 }
            st) := by
  unfold nodeInterfaceStep
  by_cases h2 : 2 ≤ l.ifIndex
  · left; simp [h2]
  · right
    have hlt : l.ifIndex < 2 := by omega
    rcases hf : env.FindInterfaceInNode (env.NodeInterfaceNames ref).1
      (env.NodeInterfaceNames ref).2 with ⟨_ | iface, ty⟩
    · left; simp [h2, hlt]
    · right
      exact ⟨hlt, iface, ty, rfl, by simp [h2]⟩

theorem placedCount_cons (env : Env) (ref : String) (rest : List String) :
    placedCount env (ref :: rest) =
      (if (podPlacement env ref).isSome = true then 1 else 0) + placedCount env rest := by
  unfold placedCount
  by_cases h : (podPlacement env ref).isSome = true
  · simp [List.filter_cons, h]; omega
  · simp [List.filter_cons, h]

/-- What holds when the pod loop falls through to the next statement. -/
theorem podInterfacesLoop_next (env : Env) (pods : List String) :
    ∀ (i : Nat) (l : Locals) (st : St) (l1 : Locals) (st1 : St),
      podInterfacesLoop env i pods l st = Flow.next l1 st1 →
      SameButMsgs st st1 ∧
      l1.ifIndex = l.ifIndex + placedCount env pods ∧
      (l.ifIndex ≤ 2 → l1.ifIndex ≤ 2) ∧
      l1.p2nArray.length = l.p2nArray.length ∧
      l1.netPodInterfaces.length = l.netPodInterfaces.length ∧
      l1.networkPodTypes.length = l.networkPodTypes.length ∧
      l1.staticNodesInInterfacesSpecified = l.staticNodesInInterfacesSpecified ∧
      (l1.allPodsAssignedToNodes = true →
        l.allPodsAssignedToNodes = true ∧ st1 = st ∧
          ∀ ref ∈ pods, (podPlacement env ref).isSome = true) := by
  induction pods with
  | nil =>
    intro i l st l1 st1 h
    simp only [podInterfacesLoop, Flow.next.injEq] at h
    obtain ⟨rfl, rfl⟩ := h
    simp [SameButMsgs, placedCount]
  | cons ref rest ih =>
    intro i l st l1 st1 h
    rw [podInterfacesLoop] at h
    rcases podInterfaceStep_cases env i ref l st with
      ⟨_, hs⟩ | ⟨hlt, hp, msg, hs⟩ | ⟨_, _, _, hs⟩ | ⟨hlt, p2n, iface, ty, hp, _, hs⟩
    · rw [hs] at h; simp at h
    · rw [hs] at h
      have := ih _ _ _ _ _ h
      obtain ⟨hf, hi, hb, hl1, hl2, hl3, hst, hall⟩ := this
      refine ⟨(sameButMsgs_append st msg).trans hf, ?_, ?_, hl1, hl2, hl3, hst, ?_⟩
      · rw [placedCount_cons, hi]; simp [hp]
      · intro _; exact hb (by simpa using Nat.le_of_lt hlt)
      · intro ht; have := (hall ht).1; simp at this
    · rw [hs] at h; simp at h
    · rw [hs] at h
      have := ih _ _ _ _ _ h
      obtain ⟨hf, hi, hb, hl1, hl2, hl3, hst, hall⟩ := this
      refine ⟨hf, ?_, ?_, ?_, ?_, ?_, hst, ?_⟩
      · rw [placedCount_cons, hi]; simp [hp]; omega
      · intro _; exact hb (by simp; omega)
      · simpa using hl1
      · simpa using hl2
      · simpa using hl3
      · intro ht
        obtain ⟨h1, h2, h3⟩ := hall ht
        refine ⟨h1, h2, ?_⟩
        intro r hr
        rcases List.mem_cons.mp hr with rfl | hr
        · simp [hp]
        · exact h3 r hr

/-- What holds when the pod loop returns from the function. -/
theorem podInterfacesLoop_ret (env : Env) (pods : List String) :
    ∀ (i : Nat) (l : Locals) (st : St) (o : Outcome) (st1 : St),
      podInterfacesLoop env i pods l st = Flow.ret o st1 →
      SameButMsgs st st1 ∧
      ((o = Outcome.error tooManySegmentsMsg ∧ 2 < l.ifIndex + pods.length) ∨
        (o = Outcome.panic ∧ ∃ ref ∈ pods,
          (env.findNetworkPodAndInterfaceInList (env.ConnPodInterfaceNames ref).1
            (env.ConnPodInterfaceNames ref).2).1 = none)) := by
  induction pods with
  | nil =>
    intro i l st o st1 h
    simp [podInterfacesLoop] at h
  | cons ref rest ih =>
    intro i l st o st1 h
    rw [podInterfacesLoop] at h
    rcases podInterfaceStep_cases env i ref l st with
      ⟨h2, hs⟩ | ⟨hlt, hp, msg, hs⟩ | ⟨_, _, hn, hs⟩ | ⟨hlt, p2n, iface, ty, hp, _, hs⟩
    · rw [hs] at h
      simp only [Flow.ret.injEq] at h
      obtain ⟨rfl, rfl⟩ := h
      exact ⟨sameButMsgs_append st _, Or.inl ⟨rfl, by simp; omega⟩⟩
    · rw [hs] at h
      obtain ⟨hf, hc⟩ := ih _ _ _ _ _ h
      refine ⟨(sameButMsgs_append st msg).trans hf, ?_⟩
      rcases hc with ⟨ho, hlen⟩ | ⟨ho, r, hr, hnone⟩
      · exact Or.inl ⟨ho, by simp at hlen ⊢; omega⟩
      · exact Or.inr ⟨ho, r, List.mem_cons_of_mem _ hr, hnone⟩
    · rw [hs] at h
      simp only [Flow.ret.injEq] at h
      obtain ⟨rfl, rfl⟩ := h
      exact ⟨SameButMsgs.refl st, Or.inr ⟨rfl, ref, List.mem_cons_self _ _, hn⟩⟩
    · rw [hs] at h
      obtain ⟨hf, hc⟩ := ih _ _ _ _ _ h
      refine ⟨hf, ?_⟩
      rcases hc with ⟨ho, hlen⟩ | ⟨ho, r, hr, hnone⟩
      · exact Or.inl ⟨ho, by simp at hlen ⊢; omega⟩
      · exact Or.inr ⟨ho, r, List.mem_cons_of_mem _ hr, hnone⟩

/-- What holds when the host loop falls through to the next statement. -/
theorem nodeInterfacesLoop_next (env : Env) (nodes : List String) :
    ∀ (l : Locals) (st : St) (l1 : Locals) (st1 : St),
      nodeInterfacesLoop env nodes l st = Flow.next l1 st1 →
      st1 = st ∧
      l1.ifIndex = l.ifIndex + nodes.length ∧
      (l.ifIndex ≤ 2 → l1.ifIndex ≤ 2) ∧
      l1.p2nArray.length = l.p2nArray.length ∧
      l1.netPodInterfaces.length = l.netPodInterfaces.length ∧
      l1.networkPodTypes.length = l.networkPodTypes.length ∧
      l1.allPodsAssignedToNodes = l.allPodsAssignedToNodes ∧
      (nodes ≠ [] → l1.staticNodesInInterfacesSpecified = true) ∧
      (nodes = [] → l1 = l) := by
  induction nodes with
  | nil =>
    intro l st l1 st1 h
    simp only [nodeInterfacesLoop, Flow.next.injEq] at h
    obtain ⟨rfl, rfl⟩ := h
    simp
  | cons ref rest ih =>
    intro l st l1 st1 h
    rw [nodeInterfacesLoop] at h
    rcases nodeInterfaceStep_cases env ref l st with
      ⟨_, hs⟩ | ⟨_, _, hs⟩ | ⟨hlt, iface, ty, _, hs⟩
    · rw [hs] at h; simp at h
    · rw [hs] at h; simp at h
    · rw [hs] at h
      obtain ⟨hst, hi, hb, hl1, hl2, hl3, hall, hstat, hnil⟩ := ih _ _ _ _ h
      refine ⟨hst, ?_, ?_, ?_, ?_, ?_, hall, ?_, ?_⟩
      · rw [hi]; simp; omega
      · intro _; exact hb (by simp; omega)
      · simpa using hl1
      · simpa using hl2
      · simpa using hl3
      · intro _
        by_cases hr : rest = []
        · rw [hnil hr]
        · exact hstat hr
      · intro hc; simp at hc

/-- What holds when the host loop returns from the function. -/
theorem nodeInterfacesLoop_ret (env : Env) (nodes : List String) :
    ∀ (l : Locals) (st : St) (o : Outcome) (st1 : St),
      nodeInterfacesLoop env nodes l st = Flow.ret o st1 →
      SameButMsgs st st1 ∧
      ((o = Outcome.error tooManySegmentsMsg ∧ 2 < l.ifIndex + nodes.length) ∨
        (o = Outcome.panic ∧ ∃ ref ∈ nodes,
          (env.FindInterfaceInNode (env.NodeInterfaceNames ref).1
            (env.NodeInterfaceNames ref).2).1 = none)) := by
  induction nodes with
  | nil =>
    intro l st o st1 h
    simp [nodeInterfacesLoop] at h
  | cons ref rest ih =>
    intro l st o st1 h
    rw [nodeInterfacesLoop] at h
    rcases nodeInterfaceStep_cases env ref l st with
      ⟨h2, hs⟩ | ⟨_, hn, hs⟩ | ⟨hlt, iface, ty, _, hs⟩
    · rw [hs] at h
      simp only [Flow.ret.injEq] at h
      obtain ⟨rfl, rfl⟩ := h
      exact ⟨sameButMsgs_append st _, Or.inl ⟨rfl, by simp; omega⟩⟩
    · rw [hs] at h
      simp only [Flow.ret.injEq] at h
      obtain ⟨rfl, rfl⟩ := h
      exact ⟨SameButMsgs.refl st, Or.inr ⟨rfl, ref, List.mem_cons_self _ _, hn⟩⟩
    · rw [hs] at h
      obtain ⟨hf, hc⟩ := ih _ _ _ _ h
      refine ⟨hf, ?_⟩
      rcases hc with ⟨ho, hlen⟩ | ⟨ho, r, hr, hnone⟩
      · exact Or.inl ⟨ho, by simp at hlen ⊢; omega⟩
      · exact Or.inr ⟨ho, r, List.mem_cons_of_mem _ hr, hnone⟩

theorem placedCount_le (env : Env) (pods : List String) :
    placedCount env pods ≤ pods.length := by
  unfold placedCount
  exact List.length_filter_le _ _

theorem placedCount_eq_length (env : Env) (pods : List String)
    (h : ∀ ref ∈ pods, (podPlacement env ref).isSome = true) :
    placedCount env pods = pods.length := by
  unfold placedCount
  rw [List.filter_eq_self.mpr]
  intro a ha
  exact h a ha

/-- What holds when both loops fall through to the placement check of line 103. -/
theorem resolveRefs_next (env : Env) (conn : Connection) (st : St) (l2 : Locals) (st2 : St)
    (h : resolveRefs env conn st = Flow.next l2 st2) :
    SameButMsgs st st2 ∧
    l2.ifIndex = placedCount env conn.PodInterfaces + conn.NodeInterfaces.length ∧
    l2.ifIndex ≤ 2 ∧
    l2.p2nArray.length = 2 ∧ l2.netPodInterfaces.length = 2 ∧
    l2.networkPodTypes.length = 2 ∧
    (l2.staticNodesInInterfacesSpecified = true ↔ conn.NodeInterfaces ≠ []) ∧
    (l2.allPodsAssignedToNodes = true →
      st2 = st ∧ ∀ ref ∈ conn.PodInterfaces, (podPlacement env ref).isSome = true) := by
  unfold resolveRefs at h
  cases hp : podInterfacesLoop env 0 conn.PodInterfaces Locals.init st with
  | ret o s => rw [hp] at h; simp at h
  | next l1 st1 =>
    rw [hp] at h
    simp only at h
    obtain ⟨pf, pi, pb, pl1, pl2, pl3, pstat, pall⟩ := podInterfacesLoop_next env _ _ _ _ _ _ hp
    obtain ⟨nst, ni, nb, nl1, nl2, nl3, nall, nstat, nnil⟩ :=
      nodeInterfacesLoop_next env _ _ _ _ _ h
    have hi0 : Locals.init.ifIndex = 0 := rfl
    refine ⟨nst ▸ pf, ?_, ?_, ?_, ?_, ?_, ?_, ?_⟩
    · rw [ni, pi, hi0]; omega
    · exact nb (pb (by rw [hi0]; omega))
    · rw [nl1, pl1]; rfl
    · rw [nl2, pl2]; rfl
    · rw [nl3, pl3]; rfl
    · constructor
      · intro ht hnil
        rw [nnil hnil, pstat] at ht
        simp [Locals.init] at ht
      · exact nstat
    · intro ht
      rw [nall] at ht
      obtain ⟨_, h2, h3⟩ := pall ht
      exact ⟨nst.trans h2, h3⟩

/-- What holds when one of the two loops returns from the function. -/
theorem resolveRefs_ret (env : Env) (conn : Connection) (st : St) (o : Outcome) (st2 : St)
    (h : resolveRefs env conn st = Flow.ret o st2) :
    SameButMsgs st st2 ∧
    ((o = Outcome.error tooManySegmentsMsg ∧
        2 < conn.PodInterfaces.length + conn.NodeInterfaces.length) ∨
      o = Outcome.panic) := by
  unfold resolveRefs at h
  cases hp : podInterfacesLoop env 0 conn.PodInterfaces Locals.init st with
  | ret o1 s =>
    rw [hp] at h
    simp only [Flow.ret.injEq] at h
    obtain ⟨rfl, rfl⟩ := h
    obtain ⟨hf, hc⟩ := podInterfacesLoop_ret env _ _ _ _ _ _ hp
    refine ⟨hf, ?_⟩
    rcases hc with ⟨ho, hlen⟩ | ⟨ho, _⟩
    · exact Or.inl ⟨ho, by simp [Locals.init] at hlen; omega⟩
    · exact Or.inr ho
  | next l1 st1 =>
    rw [hp] at h
    simp only at h
    obtain ⟨pf, pi, _⟩ := podInterfacesLoop_next env _ _ _ _ _ _ hp
    obtain ⟨hf, hc⟩ := nodeInterfacesLoop_ret env _ _ _ _ _ h
    refine ⟨pf.trans hf, ?_⟩
    rcases hc with ⟨ho, hlen⟩ | ⟨ho, _⟩
    · refine Or.inl ⟨ho, ?_⟩
      have := placedCount_le env conn.PodInterfaces
      simp [Locals.init] at pi
      omega
    · exact Or.inr ho

/-! ## The guard on the number of resolved endpoints -/

theorem resolvedCount_cons (a : Bool × Bool) (l : List (Bool × Bool)) :
    resolvedCount (a :: l) = (if a.1 = true then 1 else 0) + resolvedCount l := by
  unfold resolvedCount
  by_cases h : a.1 = true
  · simp [List.filter_cons, h]; omega
  · simp [List.filter_cons, h]

theorem resolvedCount_append (l1 l2 : List (Bool × Bool)) :
    resolvedCount (l1 ++ l2) = resolvedCount l1 + resolvedCount l2 := by
  simp [resolvedCount]

theorem resolvedCount_pods (env : Env) (pods : List String) :
    resolvedCount (pods.map (podRefInfo env)) = placedCount env pods := by
  induction pods with
  | nil => rfl
  | cons ref rest ih =>
    rw [List.map_cons, resolvedCount_cons, placedCount_cons, ih]
    rfl

theorem resolvedCount_nodes (env : Env) (nodes : List String) :
    resolvedCount (nodes.map (nodeRefInfo env)) = nodes.length := by
  induction nodes with
  | nil => rfl
  | cons ref rest ih =>
    rw [List.map_cons, resolvedCount_cons, ih]
    simp [nodeRefInfo]
    omega

/-- When the pod loop falls through, no reference was met with two endpoints resolved. -/
theorem podInterfacesLoop_guard_next (env : Env) (pods : List String) :
    ∀ (i : Nat) (l : Locals) (st : St) (l1 : Locals) (st1 : St),
      podInterfacesLoop env i pods l st = Flow.next l1 st1 →
      ∀ k, k < pods.length →
        l.ifIndex + resolvedCount ((pods.map (podRefInfo env)).take k) < 2 := by
  induction pods with
  | nil =>
    intro i l st l1 st1 _ k hk
    simp at hk
  | cons ref rest ih =>
    intro i l st l1 st1 h k hk
    rw [podInterfacesLoop] at h
    rcases podInterfaceStep_cases env i ref l st with
      ⟨_, hs⟩ | ⟨hlt, hp, msg, hs⟩ | ⟨_, _, _, hs⟩ | ⟨hlt, p2n, iface, ty, hp, _, hs⟩
    · rw [hs] at h; simp at h
    · rw [hs] at h
      cases k with
      | zero => simpa [resolvedCount] using hlt
      | succ k =>
        have := ih _ _ _ _ _ h k (by simpa using hk)
        simp only [List.map_cons, List.take_succ_cons, resolvedCount_cons]
        simp [podRefInfo, hp] at this ⊢
        exact this
    · rw [hs] at h; simp at h
    · rw [hs] at h
      cases k with
      | zero => simpa [resolvedCount] using hlt
      | succ k =>
        have := ih _ _ _ _ _ h k (by simpa using hk)
        simp only [List.map_cons, List.take_succ_cons, resolvedCount_cons]
        simp [podRefInfo, hp] at this ⊢
        omega

/-- When the pod loop returns, either a reference was met with two endpoints resolved, or
a lookup that was made returned no interface. -/
theorem podInterfacesLoop_guard_ret (env : Env) (pods : List String) :
    ∀ (i : Nat) (l : Locals) (st : St) (o : Outcome) (st1 : St),
      podInterfacesLoop env i pods l st = Flow.ret o st1 →
      (o = Outcome.error tooManySegmentsMsg ∧
        ∃ k, k < pods.length ∧
          2 ≤ l.ifIndex + resolvedCount ((pods.map (podRefInfo env)).take k)) ∨
      (o = Outcome.panic ∧
        ∃ k, k < pods.length ∧
          ((pods.map (podRefInfo env)).getD k (false, false)).1 = true ∧
          l.ifIndex + resolvedCount ((pods.map (podRefInfo env)).take k) < 2 ∧
          ((pods.map (podRefInfo env)).getD k (false, false)).2 = false) := by
  induction pods with
  | nil =>
    intro i l st o st1 h
    simp [podInterfacesLoop] at h
  | cons ref rest ih =>
    intro i l st o st1 h
    rw [podInterfacesLoop] at h
    rcases podInterfaceStep_cases env i ref l st with
      ⟨h2, hs⟩ | ⟨hlt, hp, msg, hs⟩ | ⟨hlt, hp, hn, hs⟩ | ⟨hlt, p2n, iface, ty, hp, _, hs⟩
    · rw [hs] at h
      simp only [Flow.ret.injEq] at h
      obtain ⟨rfl, rfl⟩ := h
      exact Or.inl ⟨rfl, 0, by simp, by simpa [resolvedCount] using h2⟩
    · rw [hs] at h
      rcases ih _ _ _ _ _ h with ⟨ho, k, hk, hc⟩ | ⟨ho, k, hk, h1, hc, h2⟩
      · refine Or.inl ⟨ho, k + 1, by simpa using hk, ?_⟩
        simp only [List.map_cons, List.take_succ_cons, resolvedCount_cons]
        simp [podRefInfo, hp] at hc ⊢
        exact hc
      · refine Or.inr ⟨ho, k + 1, by simpa using hk, ?_, ?_, ?_⟩
        · simpa using h1
        · simp only [List.map_cons, List.take_succ_cons, resolvedCount_cons]
          simp [podRefInfo, hp] at hc ⊢
          exact hc
        · simpa using h2
    · rw [hs] at h
      simp only [Flow.ret.injEq] at h
      obtain ⟨rfl, rfl⟩ := h
      refine Or.inr ⟨rfl, 0, by simp, ?_, ?_, ?_⟩
      · simpa [podRefInfo] using hp
      · simpa [resolvedCount] using hlt
      · simp [podRefInfo, hn]
    · rw [hs] at h
      rcases ih _ _ _ _ _ h with ⟨ho, k, hk, hc⟩ | ⟨ho, k, hk, h1, hc, h2⟩
      · refine Or.inl ⟨ho, k + 1, by simpa using hk, ?_⟩
        simp only [List.map_cons, List.take_succ_cons, resolvedCount_cons]
        simp [podRefInfo, hp] at hc ⊢
        omega
      · refine Or.inr ⟨ho, k + 1, by simpa using hk, ?_, ?_, ?_⟩
        · simpa using h1
        · simp only [List.map_cons, List.take_succ_cons, resolvedCount_cons]
          simp [podRefInfo, hp] at hc ⊢
          omega
        · simpa using h2

/-- When the host loop falls through, no reference was met with two endpoints resolved. -/
theorem nodeInterfacesLoop_guard_next (env : Env) (nodes : List String) :
    ∀ (l : Locals) (st : St) (l1 : Locals) (st1 : St),
      nodeInterfacesLoop env nodes l st = Flow.next l1 st1 →
      ∀ k, k < nodes.length →
        l.ifIndex + resolvedCount ((nodes.map (nodeRefInfo env)).take k) < 2 := by
  induction nodes with
  | nil =>
    intro l st l1 st1 _ k hk
    simp at hk
  | cons ref rest ih =>
    intro l st l1 st1 h k hk
    rw [nodeInterfacesLoop] at h
    rcases nodeInterfaceStep_cases env ref l st with
      ⟨_, hs⟩ | ⟨_, _, hs⟩ | ⟨hlt, iface, ty, _, hs⟩
    · rw [hs] at h; simp at h
    · rw [hs] at h; simp at h
    · rw [hs] at h
      cases k with
      | zero => simpa [resolvedCount] using hlt
      | succ k =>
        have := ih _ _ _ _ h k (by simpa using hk)
        simp only [List.map_cons, List.take_succ_cons, resolvedCount_cons]
        simp [nodeRefInfo] at this ⊢
        omega

/-- When the host loop returns, either a reference was met with two endpoints resolved, or
a lookup that was made returned no interface. -/
theorem nodeInterfacesLoop_guard_ret (env : Env) (nodes : List String) :
    ∀ (l : Locals) (st : St) (o : Outcome) (st1 : St),
      nodeInterfacesLoop env nodes l st = Flow.ret o st1 →
      (o = Outcome.error tooManySegmentsMsg ∧
        ∃ k, k < nodes.length ∧
          2 ≤ l.ifIndex + resolvedCount ((nodes.map (nodeRefInfo env)).take k)) ∨
      (o = Outcome.panic ∧
        ∃ k, k < nodes.length ∧
          l.ifIndex + resolvedCount ((nodes.map (nodeRefInfo env)).take k) < 2 ∧
          ((nodes.map (nodeRefInfo env)).getD k (false, false)).2 = false) := by
  induction nodes with
  | nil =>
    intro l st o st1 h
    simp [nodeInterfacesLoop] at h
  | cons ref rest ih =>
    intro l st o st1 h
    rw [nodeInterfacesLoop] at h
    rcases nodeInterfaceStep_cases env ref l st with
      ⟨h2, hs⟩ | ⟨hlt, hn, hs⟩ | ⟨hlt, iface, ty, _, hs⟩
    · rw [hs] at h
      simp only [Flow.ret.injEq] at h
      obtain ⟨rfl, rfl⟩ := h
      exact Or.inl ⟨rfl, 0, by simp, by simpa [resolvedCount] using h2⟩
    · rw [hs] at h
      simp only [Flow.ret.injEq] at h
      obtain ⟨rfl, rfl⟩ := h
      refine Or.inr ⟨rfl, 0, by simp, ?_, ?_⟩
      · simpa [resolvedCount] using hlt
      · simp [nodeRefInfo, hn]
    · rw [hs] at h
      rcases ih _ _ _ _ h with ⟨ho, k, hk, hc⟩ | ⟨ho, k, hk, hc, h2⟩
      · refine Or.inl ⟨ho, k + 1, by simpa using hk, ?_⟩
        simp only [List.map_cons, List.take_succ_cons, resolvedCount_cons]
        simp [nodeRefInfo] at hc ⊢
        omega
      · refine Or.inr ⟨ho, k + 1, by simpa using hk, ?_, ?_⟩
        · simp only [List.map_cons, List.take_succ_cons, resolvedCount_cons]
          simp [nodeRefInfo] at hc ⊢
          omega
        · simpa using h2

theorem resolvedCount_take_refInfos (env : Env) (conn : Connection) (k : Nat) :
    resolvedCount ((refInfos env conn).take k) =
      resolvedCount ((conn.PodInterfaces.map (podRefInfo env)).take k) +
        resolvedCount ((conn.NodeInterfaces.map (nodeRefInfo env)).take
          (k - conn.PodInterfaces.length)) := by
  unfold refInfos
  rw [List.take_append_eq_append_take, resolvedCount_append]
  simp

/-- When both loops fall through, no reference was met with two endpoints resolved. -/
theorem resolveRefs_next_guard (env : Env) (conn : Connection) (st : St) (l2 : Locals)
    (st2 : St) (h : resolveRefs env conn st = Flow.next l2 st2) :
    ¬ MetAfterTwoResolved env conn := by
  unfold resolveRefs at h
  cases hp : podInterfacesLoop env 0 conn.PodInterfaces Locals.init st with
  | ret o s => rw [hp] at h; simp at h
  | next l1 st1 =>
    rw [hp] at h
    simp only at h
    have hP := podInterfacesLoop_guard_next env _ _ _ _ _ _ hp
    have hN := nodeInterfacesLoop_guard_next env _ _ _ _ _ h
    obtain ⟨_, pi, _⟩ := podInterfacesLoop_next env _ _ _ _ _ _ hp
    have hi0 : Locals.init.ifIndex = 0 := rfl
    rw [hi0] at hP pi
    rintro ⟨k, hk, hc⟩
    rw [resolvedCount_take_refInfos] at hc
    simp only [refInfos, List.length_append, List.length_map] at hk
    by_cases hlt : k < conn.PodInterfaces.length
    · have := hP k hlt
      have h0 : k - conn.PodInterfaces.length = 0 := by omega
      rw [h0] at hc
      simp [resolvedCount] at hc this
      omega
    · have := hN (k - conn.PodInterfaces.length) (by omega)
      rw [List.take_of_length_le (by simp; omega), resolvedCount_pods] at hc
      omega

/-- When one of the two loops returns, either a reference was met with two endpoints
resolved and the error is the one for too many segments, or a lookup that was made
returned no interface and the call panics. -/
theorem resolveRefs_ret_guard (env : Env) (conn : Connection) (st : St) (o : Outcome)
    (st2 : St) (h : resolveRefs env conn st = Flow.ret o st2) :
    (o = Outcome.error tooManySegmentsMsg ∧ MetAfterTwoResolved env conn) ∨
      (o = Outcome.panic ∧ ¬ MadeLookupsSucceed env conn) := by
  unfold resolveRefs at h
  cases hp : podInterfacesLoop env 0 conn.PodInterfaces Locals.init st with
  | ret o1 s =>
    rw [hp] at h
    simp only [Flow.ret.injEq] at h
    obtain ⟨rfl, rfl⟩ := h
    have hi0 : Locals.init.ifIndex = 0 := rfl
    rcases podInterfacesLoop_guard_ret env _ _ _ _ _ _ hp with
      ⟨ho, k, hk, hc⟩ | ⟨ho, k, hk, h1, hc, h2⟩
    · refine Or.inl ⟨ho, k, ?_, ?_⟩
      · simp [refInfos]; omega
      · rw [resolvedCount_take_refInfos]
        rw [hi0] at hc
        omega
    · refine Or.inr ⟨ho, fun hm => ?_⟩
      have hlen : k < (conn.PodInterfaces.map (podRefInfo env)).length := by simpa using hk
      have hg : (refInfos env conn).getD k (false, false) =
          (conn.PodInterfaces.map (podRefInfo env)).getD k (false, false) := by
        unfold refInfos
        exact List.getD_append _ _ _ _ hlen
      have := hm k (by simp [refInfos]; omega) (by rw [hg]; exact h1)
        (by
          rw [resolvedCount_take_refInfos]
          have h0 : k - conn.PodInterfaces.length = 0 := by omega
          rw [h0, hi0] at *
          simp [resolvedCount] at hc ⊢
          omega)
      rw [hg, h2] at this
      simp at this
  | next l1 st1 =>
    rw [hp] at h
    simp only at h
    obtain ⟨_, pi, _⟩ := podInterfacesLoop_next env _ _ _ _ _ _ hp
    have hi0 : Locals.init.ifIndex = 0 := rfl
    rw [hi0] at pi
    rcases nodeInterfacesLoop_guard_ret env _ _ _ _ _ h with
      ⟨ho, k, hk, hc⟩ | ⟨ho, k, hk, hc, h2⟩
    · refine Or.inl ⟨ho, conn.PodInterfaces.length + k, ?_, ?_⟩
      · simp [refInfos]; omega
      · rw [resolvedCount_take_refInfos, List.take_of_length_le (by simp),
          resolvedCount_pods]
        have h0 : conn.PodInterfaces.length + k - conn.PodInterfaces.length = k := by omega
        rw [h0]
        omega
    · refine Or.inr ⟨ho, fun hm => ?_⟩
      have hg : (refInfos env conn).getD (conn.PodInterfaces.length + k) (false, false) =
          (conn.NodeInterfaces.map (nodeRefInfo env)).getD k (false, false) := by
        unfold refInfos
        rw [List.getD_append_right _ _ _ _ (by simp)]
        simp
      have hres : ((conn.NodeInterfaces.map (nodeRefInfo env)).getD k (false, false)).1 =
          true := by
        rw [List.getD_eq_getElem _ _ (by simpa using hk)]
        simp [nodeRefInfo]
      have := hm (conn.PodInterfaces.length + k) (by simp [refInfos]; omega)
        (by rw [hg]; exact hres)
        (by
          rw [resolvedCount_take_refInfos, List.take_of_length_le (by simp),
            resolvedCount_pods]
          have h0 : conn.PodInterfaces.length + k - conn.PodInterfaces.length = k := by omega
          rw [h0]
          omega)
      rw [hg, h2] at this
      simp at this

theorem resolvedCount_le_length (infos : List (Bool × Bool)) :
    resolvedCount infos ≤ infos.length := by
  unfold resolvedCount
  exact List.length_filter_le _ _

/-- Three resolving references: the last reference is met after two are resolved. -/
theorem metAfterTwoResolved_of_three (env : Env) (conn : Connection)
    (h : 3 ≤ placedCount env conn.PodInterfaces + conn.NodeInterfaces.length) :
    MetAfterTwoResolved env conn := by
  have hrc : resolvedCount (refInfos env conn) =
      placedCount env conn.PodInterfaces + conn.NodeInterfaces.length := by
    unfold refInfos
    rw [resolvedCount_append, resolvedCount_pods, resolvedCount_nodes]
  have hle := resolvedCount_le_length (refInfos env conn)
  refine ⟨(refInfos env conn).length - 1, by omega, ?_⟩
  have hsplit := List.take_append_drop ((refInfos env conn).length - 1) (refInfos env conn)
  have hd := resolvedCount_le_length
    ((refInfos env conn).drop ((refInfos env conn).length - 1))
  rw [List.length_drop] at hd
  have hs : resolvedCount (refInfos env conn) =
      resolvedCount ((refInfos env conn).take ((refInfos env conn).length - 1)) +
        resolvedCount ((refInfos env conn).drop ((refInfos env conn).length - 1)) := by
    rw [← resolvedCount_append, hsplit]
  omega

/-- At most two references: no reference is met after two are resolved. -/
theorem not_metAfterTwoResolved_of_le_two (env : Env) (conn : Connection)
    (h : conn.PodInterfaces.length + conn.NodeInterfaces.length ≤ 2) :
    ¬ MetAfterTwoResolved env conn := by
  rintro ⟨k, hk, hc⟩
  have hle := resolvedCount_le_length ((refInfos env conn).take k)
  have hlen : (refInfos env conn).length =
      conn.PodInterfaces.length + conn.NodeInterfaces.length := by
    simp [refInfos]
  rw [List.length_take] at hle
  omega

/-! ## The four ways through `RenderConnL2PP` -/

theorem RenderConnL2PP_of_ret (env : Env) (ns : NetworkService) (conn : Connection)
    (connIndex : Nat) (st : St) (o : Outcome) (st2 : St)
    (h : resolveRefs env conn st = Flow.ret o st2) :
    RenderConnL2PP env ns conn connIndex st = ⟨o, st2⟩ := by
  simp only [RenderConnL2PP, h]

theorem RenderConnL2PP_of_unplaced (env : Env) (ns : NetworkService) (conn : Connection)
    (connIndex : Nat) (st : St) (l2 : Locals) (st2 : St)
    (h : resolveRefs env conn st = Flow.next l2 st2)
    (hall : l2.allPodsAssignedToNodes = false) :
    RenderConnL2PP env ns conn connIndex st =
      ⟨Outcome.error (placementIncompleteMsg ns),
        AppendStatusMsg st2 (placementIncompleteMsg ns)⟩ := by
  simp only [RenderConnL2PP, h, hall, if_true]

theorem RenderConnL2PP_of_label_ret (env : Env) (ns : NetworkService) (conn : Connection)
    (connIndex : Nat) (st : St) (l2 : Locals) (st2 : St) (o : Outcome) (st3 : St)
    (h : resolveRefs env conn st = Flow.next l2 st2)
    (hall : l2.allPodsAssignedToNodes = true)
    (hlab : nodeInterfaceLabelsStep env ns conn l2 st2 = Flow.ret o st3) :
    RenderConnL2PP env ns conn connIndex st = ⟨o, st3⟩ := by
  simp [RenderConnL2PP, h, hall, hlab]

theorem RenderConnL2PP_of_resolved (env : Env) (ns : NetworkService) (conn : Connection)
    (connIndex : Nat) (st : St) (l2 : Locals) (st2 : St) (l3 : Locals) (st3 : St)
    (h : resolveRefs env conn st = Flow.next l2 st2)
    (hall : l2.allPodsAssignedToNodes = true)
    (hlab : nodeInterfaceLabelsStep env ns conn l2 st2 = Flow.next l3 st3) :
    RenderConnL2PP env ns conn connIndex st = renderResolved env ns conn connIndex l3 st3 := by
  simp [RenderConnL2PP, h, hall, hlab]

/-! ## The lookups that the loops make -/

/-- When the pod loop falls through or returns the error for too many segments, every
lookup it made returned an interface. -/
theorem podInterfacesLoop_made (env : Env) (pods : List String) :
    ∀ (i : Nat) (l : Locals) (st : St) (f : Flow),
      podInterfacesLoop env i pods l st = f →
      ((∃ l1 st1, f = Flow.next l1 st1) ∨
        ∃ st1, f = Flow.ret (Outcome.error tooManySegmentsMsg) st1) →
      ∀ k, k < pods.length →
        ((pods.map (podRefInfo env)).getD k (false, false)).1 = true →
        l.ifIndex + resolvedCount ((pods.map (podRefInfo env)).take k) < 2 →
        ((pods.map (podRefInfo env)).getD k (false, false)).2 = true := by
  induction pods with
  | nil =>
    intro i l st f _ _ k hk
    simp at hk
  | cons ref rest ih =>
    intro i l st f h hf k hk h1 hc
    rw [podInterfacesLoop] at h
    rcases podInterfaceStep_cases env i ref l st with
      ⟨h2, hs⟩ | ⟨hlt, hp, msg, hs⟩ | ⟨_, _, _, hs⟩ | ⟨hlt, p2n, iface, ty, hp, hfound, hs⟩
    · have := Nat.le_add_right l.ifIndex
        (resolvedCount ((List.map (podRefInfo env) (ref :: rest)).take k))
      omega
    · rw [hs] at h
      cases k with
      | zero => simp [podRefInfo, hp] at h1
      | succ k =>
        simp only [List.map_cons, List.take_succ_cons, resolvedCount_cons] at hc
        simp only [List.map_cons, List.getD_cons_succ] at h1 ⊢
        refine ih _ _ _ f h hf k (by simpa using hk) h1 ?_
        simp [podRefInfo, hp] at hc
        exact hc
    · rw [hs] at h
      subst h
      rcases hf with ⟨l1, st1, hf⟩ | ⟨st1, hf⟩
      · simp at hf
      · simp at hf
    · rw [hs] at h
      cases k with
      | zero => simp [podRefInfo, hfound]
      | succ k =>
        simp only [List.map_cons, List.take_succ_cons, resolvedCount_cons] at hc
        simp only [List.map_cons, List.getD_cons_succ] at h1 ⊢
        refine ih _ _ _ f h hf k (by simpa using hk) h1 ?_
        simp [podRefInfo, hp] at hc
        simp
        omega

/-- When the host loop falls through or returns the error for too many segments, every
lookup it made returned an interface. -/
theorem nodeInterfacesLoop_made (env : Env) (nodes : List String) :
    ∀ (l : Locals) (st : St) (f : Flow),
      nodeInterfacesLoop env nodes l st = f →
      ((∃ l1 st1, f = Flow.next l1 st1) ∨
        ∃ st1, f = Flow.ret (Outcome.error tooManySegmentsMsg) st1) →
      ∀ k, k < nodes.length →
        l.ifIndex + resolvedCount ((nodes.map (nodeRefInfo env)).take k) < 2 →
        ((nodes.map (nodeRefInfo env)).getD k (false, false)).2 = true := by
  induction nodes with
  | nil =>
    intro l st f _ _ k hk
    simp at hk
  | cons ref rest ih =>
    intro l st f h hf k hk hc
    rw [nodeInterfacesLoop] at h
    rcases nodeInterfaceStep_cases env ref l st with
      ⟨h2, hs⟩ | ⟨_, _, hs⟩ | ⟨hlt, iface, ty, hfound, hs⟩
    · have := Nat.le_add_right l.ifIndex
        (resolvedCount ((List.map (nodeRefInfo env) (ref :: rest)).take k))
      omega
    · rw [hs] at h
      subst h
      rcases hf with ⟨l1, st1, hf⟩ | ⟨st1, hf⟩
      · simp at hf
      · simp at hf
    · rw [hs] at h
      cases k with
      | zero => simp [nodeRefInfo, hfound]
      | succ k =>
        simp only [List.map_cons, List.take_succ_cons, resolvedCount_cons] at hc
        simp only [List.map_cons, List.getD_cons_succ]
        refine ih _ _ f h hf k (by simpa using hk) ?_
        simp [nodeRefInfo] at hc
        simp
        omega

/-- When the two loops fall through or return the error for too many segments, every
lookup they made returned an interface. -/
theorem resolveRefs_made (env : Env) (conn : Connection) (st : St)
    (hf : (∃ l2 st2, resolveRefs env conn st = Flow.next l2 st2) ∨
      ∃ st2, resolveRefs env conn st =
        Flow.ret (Outcome.error tooManySegmentsMsg) st2) :
    MadeLookupsSucceed env conn := by
  intro k hk h1 hc
  have hi0 : Locals.init.ifIndex = 0 := rfl
  rw [resolvedCount_take_refInfos] at hc
  simp only [refInfos, List.length_append, List.length_map] at hk
  unfold resolveRefs at hf
  cases hp : podInterfacesLoop env 0 conn.PodInterfaces Locals.init st with
  | ret o s =>
    rw [hp] at hf
    have hfp : (∃ l1 st1, Flow.ret o s = Flow.next l1 st1) ∨
        ∃ st1, Flow.ret o s = Flow.ret (Outcome.error tooManySegmentsMsg) st1 := by
      rcases hf with ⟨l2, st2, hf⟩ | ⟨st2, hf⟩
      · simp at hf
      · exact Or.inr ⟨st2, hf⟩
    have hg := podInterfacesLoop_guard_ret env _ _ _ _ _ _ hp
    rcases hg with ⟨_, j, hj, hcj⟩ | ⟨ho, _⟩
    · rw [hi0] at hcj
      by_cases hlt : k < conn.PodInterfaces.length
      · have hlen : k < (conn.PodInterfaces.map (podRefInfo env)).length := by simpa using hlt
        have hgd : (refInfos env conn).getD k (false, false) =
            (conn.PodInterfaces.map (podRefInfo env)).getD k (false, false) := by
          unfold refInfos
          exact List.getD_append _ _ _ _ hlen
        rw [hgd] at h1 ⊢
        exact podInterfacesLoop_made env _ _ _ _ _ hp hfp k hlt h1 (by rw [hi0]; omega)
      · exfalso
        rw [List.take_of_length_le (by simp; omega)] at hc
        have hmono : resolvedCount ((conn.PodInterfaces.map (podRefInfo env)).take j) ≤
            resolvedCount (conn.PodInterfaces.map (podRefInfo env)) := by
          have hsplit := List.take_append_drop j (conn.PodInterfaces.map (podRefInfo env))
          have : resolvedCount (conn.PodInterfaces.map (podRefInfo env)) =
              resolvedCount ((conn.PodInterfaces.map (podRefInfo env)).take j) +
                resolvedCount ((conn.PodInterfaces.map (podRefInfo env)).drop j) := by
            rw [← resolvedCount_append, hsplit]
          omega
        omega
    · subst ho
      rcases hfp with ⟨l1, st1, hf⟩ | ⟨st1, hf⟩
      · simp at hf
      · simp at hf
  | next l1 st1 =>
    rw [hp] at hf
    simp only at hf
    obtain ⟨_, pi, _⟩ := podInterfacesLoop_next env _ _ _ _ _ _ hp
    rw [hi0] at pi
    by_cases hlt : k < conn.PodInterfaces.length
    · have hlen : k < (conn.PodInterfaces.map (podRefInfo env)).length := by simpa using hlt
      have hgd : (refInfos env conn).getD k (false, false) =
          (conn.PodInterfaces.map (podRefInfo env)).getD k (false, false) := by
        unfold refInfos
        exact List.getD_append _ _ _ _ hlen
      rw [hgd] at h1 ⊢
      exact podInterfacesLoop_made env _ _ _ _ _ hp (Or.inl ⟨l1, st1, rfl⟩) k hlt h1
        (by rw [hi0]; omega)
    · have hk2 : k - conn.PodInterfaces.length < conn.NodeInterfaces.length := by omega
      have hgd : (refInfos env conn).getD k (false, false) =
          (conn.NodeInterfaces.map (nodeRefInfo env)).getD (k - conn.PodInterfaces.length)
            (false, false) := by
        unfold refInfos
        rw [List.getD_append_right _ _ _ _ (by simp; omega)]
        simp
      rw [hgd]
      rw [List.take_of_length_le (by simp; omega), resolvedCount_pods] at hc
      exact nodeInterfacesLoop_made env _ _ _ _ rfl hf _ hk2 (by omega)

/-- A lookup that is made and returns no interface makes `RenderConnL2PP` panic: the
lookups that are made are exactly those whose failure the code does not survive. -/
theorem RenderConnL2PP_panic_of_failed_lookup (env : Env) (ns : NetworkService)
    (conn : Connection) (connIndex : Nat) (st : St) (h : ¬ MadeLookupsSucceed env conn) :
    (RenderConnL2PP env ns conn connIndex st).outcome = Outcome.panic := by
  cases hr : resolveRefs env conn st with
  | next l2 st2 => exact absurd (resolveRefs_made env conn st (Or.inl ⟨l2, st2, hr⟩)) h
  | ret o st2 =>
    rw [RenderConnL2PP_of_ret env ns conn connIndex st o st2 hr]
    rcases resolveRefs_ret_guard env conn st o st2 hr with ⟨ho, _⟩ | ⟨ho, _⟩
    · subst ho
      exact absurd (resolveRefs_made env conn st (Or.inr ⟨st2, hr⟩)) h
    · exact ho

/-! ## Properties of the label step -/

theorem callsSince_eq_nil (st : St) (r : Result) (h : r.st.trace = st.trace) :
    callsSince st r = [] := by
  unfold callsSince
  rw [h]
  exact List.drop_length _

theorem callsSince_append (st : St) (r : Result) (calls : List Call)
    (h : r.st.trace = st.trace ++ calls) : callsSince st r = calls := by
  unfold callsSince
  rw [h]
  exact List.drop_left _ _

theorem eq_pair_of_length_two {α : Type} (xs : List α) (h : xs.length = 2) :
    ∃ a b, xs = [a, b] := by
  match xs, h with
  | [a, b], _ => exact ⟨a, b, rfl⟩

/-- Without a label selector the label step does nothing. -/
theorem nodeInterfaceLabelsStep_nil (env : Env) (ns : NetworkService) (conn : Connection)
    (l : Locals) (st : St) (h : conn.NodeInterfaceLabels = []) :
    nodeInterfaceLabelsStep env ns conn l st = Flow.next l st := by
  simp [nodeInterfaceLabelsStep, h]

/-- With a label selector, the label step fails without a lookup unless exactly one
endpoint is resolved and the selector has exactly one entry. -/
theorem nodeInterfaceLabelsStep_misuse (env : Env) (ns : NetworkService) (conn : Connection)
    (l : Locals) (st : St) (hne : conn.NodeInterfaceLabels ≠ [])
    (h : ¬ (l.ifIndex = 1 ∧ conn.NodeInterfaceLabels.length = 1)) :
    ∃ msg, nodeInterfaceLabelsStep env ns conn l st =
      Flow.ret (Outcome.error msg) (AppendStatusMsg st msg) := by
  have hlen : conn.NodeInterfaceLabels.length ≠ 0 := by
    simpa [List.length_eq_zero] using hne
  unfold nodeInterfaceLabelsStep
  rw [if_pos hlen]
  by_cases h2 : 2 ≤ l.ifIndex
  · exact ⟨_, by rw [if_pos h2]⟩
  · rw [if_neg h2]
    have hor : l.ifIndex ≠ 1 ∨ conn.NodeInterfaceLabels.length ≠ 1 := by
      by_cases h1 : l.ifIndex = 1
      · exact Or.inr (fun hc => h ⟨h1, hc⟩)
      · exact Or.inl h1
    exact ⟨_, by rw [if_pos hor]⟩

/-- The label step when the lookup does not return exactly one interface. -/
theorem nodeInterfaceLabelsStep_ambiguous (env : Env) (ns : NetworkService)
    (conn : Connection) (l : Locals) (st : St) (hidx : l.ifIndex = 1)
    (hlab : conn.NodeInterfaceLabels.length = 1)
    (hfound : (env.FindInterfacesForThisLabelInNode (nodeAt l.p2nArray 0)
      conn.NodeInterfaceLabels).1.length ≠ 1) :
    nodeInterfaceLabelsStep env ns conn l st =
      Flow.ret (Outcome.error (ambiguousLabelMsg ns conn.NodeInterfaceLabels))
        (AppendStatusMsg
          (st.log (Call.FindInterfacesForThisLabelInNode (nodeAt l.p2nArray 0)
            conn.NodeInterfaceLabels))
          (ambiguousLabelMsg ns conn.NodeInterfaceLabels)) := by
  simp [nodeInterfaceLabelsStep, hidx, hlab, hfound]

/-- The label step when the lookup returns exactly one interface and its type. -/
theorem nodeInterfaceLabelsStep_found (env : Env) (ns : NetworkService)
    (conn : Connection) (l : Locals) (st : St) (iface : Interface) (ty : String)
    (tys : List String) (hidx : l.ifIndex = 1)
    (hlab : conn.NodeInterfaceLabels.length = 1)
    (hfound : env.FindInterfacesForThisLabelInNode (nodeAt l.p2nArray 0)
      conn.NodeInterfaceLabels = ([some iface], ty :: tys)) :
    nodeInterfaceLabelsStep env ns conn l st =
      Flow.next
        { l with
          netPodInterfaces :=
            l.netPodInterfaces.set 1 (some { iface with Parent := nodeAt l.p2nArray 0 }),
          networkPodTypes := l.networkPodTypes.set 1 ty,
          p2nArray :=
            l.p2nArray.set 1 { Pod := nodeAt l.p2nArray 0, Node := nodeAt l.p2nArray 0 } }
        (st.log (Call.FindInterfacesForThisLabelInNode (nodeAt l.p2nArray 0)
          conn.NodeInterfaceLabels)) := by
  simp [nodeInterfaceLabelsStep, hidx, hlab, hfound, getIf]

/-- When the label step fills the second slot, both slots are on the same host. -/
theorem nodeInterfaceLabelsStep_next (env : Env) (ns : NetworkService) (conn : Connection)
    (l : Locals) (st : St) (l3 : Locals) (st3 : St)
    (h : nodeInterfaceLabelsStep env ns conn l st = Flow.next l3 st3)
    (hlen : l.p2nArray.length = 2) :
    (conn.NodeInterfaceLabels = [] → l3 = l ∧ st3 = st) ∧
    (conn.NodeInterfaceLabels ≠ [] → nodeAt l3.p2nArray 0 = nodeAt l3.p2nArray 1) := by
  constructor
  · intro hnil
    rw [nodeInterfaceLabelsStep_nil env ns conn l st hnil] at h
    simp only [Flow.next.injEq] at h
    exact ⟨h.1.symm, h.2.symm⟩
  · intro hne
    have hlen0 : conn.NodeInterfaceLabels.length ≠ 0 := by
      simpa [List.length_eq_zero] using hne
    obtain ⟨a, b, hab⟩ := eq_pair_of_length_two l.p2nArray hlen
    unfold nodeInterfaceLabelsStep at h
    rw [if_pos hlen0] at h
    split at h
    · simp at h
    · split at h
      · simp at h
      · split at h
        · simp at h
        · split at h
          · simp only [Flow.next.injEq] at h
            rw [← h.1, hab]
            simp [nodeAt]
          · simp at h

/-! ## Properties of the renderers -/

theorem notAnd1_zero : notAnd1 0 = 1 := by decide

theorem notAnd1_one : notAnd1 1 = 0 := by decide

/-- The interface loop logs nothing but its own calls. -/
theorem interfacePairLoop_trace (env : Env) (ns : NetworkService) (conn : Connection)
    (hostOf : Nat → String)
    (ifs : List (Option Interface)) (types : List String) (idxs : List Nat) :
    ∀ (xconn : List String) (st : St),
      ∃ calls,
        (interfacePairLoop env ns conn hostOf ifs types idxs xconn st).2.trace =
          st.trace ++ calls ∧
        ∀ c ∈ calls, ∃ host iface ty, c = Call.RenderConnInterfacePair host iface ty := by
  induction idxs with
  | nil => intro xconn st; exact ⟨[], by simp [interfacePairLoop], by simp⟩
  | cons i rest ih =>
    intro xconn st
    rw [interfacePairLoop]
    split
    · rename_i iface ty _ _
      simp only
      split
      · exact ⟨[Call.RenderConnInterfacePair (hostOf i) iface ty], by simp [St.log],
          by simp⟩
      · rename_i ifName w _
        obtain ⟨calls, h1, h2⟩ := ih (xconn.set i ifName)
          { st.log (Call.RenderConnInterfacePair (hostOf i) iface ty) with world := w }
        refine ⟨Call.RenderConnInterfacePair (hostOf i) iface ty :: calls, ?_, ?_⟩
        · rw [h1]; simp [St.log]
        · intro c hc
          rcases List.mem_cons.mp hc with rfl | hc
          · exact ⟨_, _, _, rfl⟩
          · exact h2 c hc
    · exact ⟨[], by simp, by simp⟩

/-- The cross-connect loop logs nothing but its own appends. -/
theorem xconnLoop_trace (env : Env) (ns : NetworkService) (vppAgent : String)
    (xconn : List String) (idxs : List Nat) :
    ∀ (st : St),
      ∃ calls,
        (xconnLoop env ns vppAgent xconn idxs st).st.trace = st.trace ++ calls ∧
        ∀ c ∈ calls, ∃ key kv, c = Call.RenderTxnAddVppEntriesToTxn key kv := by
  induction idxs with
  | nil => intro st; exact ⟨[], by simp [xconnLoop], by simp⟩
  | cons i rest ih =>
    intro st
    rw [xconnLoop]
    split
    · rename_i a b _ _
      obtain ⟨calls, h1, h2⟩ := ih (RenderTxnAddVppEntriesToTxn st
        (env.ModelTypeNetworkService ++ "/" ++ ns.Metadata.Name)
        (ConstructXConnect vppAgent a b))
      refine ⟨Call.RenderTxnAddVppEntriesToTxn
        (env.ModelTypeNetworkService ++ "/" ++ ns.Metadata.Name)
        (ConstructXConnect vppAgent a b) :: calls, ?_, ?_⟩
      · rw [h1]; simp [RenderTxnAddVppEntriesToTxn]
      · intro c hc
        rcases List.mem_cons.mp hc with rfl | hc
        · exact ⟨_, _, rfl⟩
        · exact h2 c hc
    · exact ⟨[], by simp, by simp⟩

/-- The switch branch logs interface creations and entry appends only. -/
theorem switchXConnects_trace (env : Env) (ns : NetworkService) (vppAgent : String)
    (conn : Connection) (ifs : List (Option Interface)) (types : List String) (st : St) :
    ∃ calls,
      (switchXConnects env ns vppAgent conn ifs types st).st.trace = st.trace ++ calls ∧
      ∀ c ∈ calls,
        (∃ host iface ty, c = Call.RenderConnInterfacePair host iface ty) ∨
        (∃ key kv, c = Call.RenderTxnAddVppEntriesToTxn key kv) := by
  unfold switchXConnects
  obtain ⟨calls1, h1, h2⟩ :=
    interfacePairLoop_trace env ns conn (fun _ => vppAgent) ifs types [0, 1] ["", ""] st
  split
  · rename_i o st1 heq
    rw [heq] at h1
    exact ⟨calls1, h1, fun c hc => Or.inl (h2 c hc)⟩
  · rename_i xconn st1 heq
    rw [heq] at h1
    obtain ⟨calls2, h3, h4⟩ := xconnLoop_trace env ns vppAgent xconn [0, 1] st1
    refine ⟨calls1 ++ calls2, ?_, ?_⟩
    · rw [h3, h1]; simp
    · intro c hc
      rcases List.mem_append.mp hc with hc | hc
      · exact Or.inl (h2 c hc)
      · exact Or.inr (h4 c hc)

theorem memifIDCheck_trace (if0 if1 : Interface) (st : St) :
    (memifIDCheck if0 if1 st).trace = st.trace := by
  unfold memifIDCheck
  split <;> rfl

/-- The lookup of a state after an identifier was assigned. -/
theorem getState_setMemifID (states : List (String × InterfaceStatus)) (key : String)
    (id : Nat) (k : String) :
    getState (setMemifID states key id) k =
      if k = key then (getState states k).map (fun _ => ⟨id⟩) else getState states k := by
  induction states with
  | nil => simp [setMemifID, getState]
  | cons e rest ih =>
    obtain ⟨k1, v⟩ := e
    simp only [setMemifID, getState]
    by_cases h2 : k1 = k
    · subst h2
      by_cases h1 : k1 = key
      · simp [h1]
      · simp [h1]
    · simp only [h2, if_false]
      exact ih

/-- Equal identifiers of two existing states are both 0 after the check. -/
theorem resetEqualMemifIDs_equal (states : List (String × InterfaceStatus))
    (key0 key1 : String) (s0 s1 : InterfaceStatus)
    (h0 : getState states key0 = some s0) (h1 : getState states key1 = some s1)
    (heq : s0.MemifID = s1.MemifID) :
    getState (resetEqualMemifIDs states key0 key1) key0 = some ⟨0⟩ ∧
    getState (resetEqualMemifIDs states key0 key1) key1 = some ⟨0⟩ := by
  unfold resetEqualMemifIDs
  simp only [h0, h1, heq, if_true]
  constructor
  · rw [getState_setMemifID, getState_setMemifID]
    by_cases hk : key0 = key1
    · simp [hk, h1]
    · simp [hk, h0]
  · rw [getState_setMemifID, getState_setMemifID]
    by_cases hk : key1 = key0
    · simp [hk, h0]
    · simp [hk, h1]

theorem ldiff_one (i : Nat) : Nat.ldiff 1 i = if i % 2 = 0 then 1 else 0 := by
  apply Nat.eq_of_testBit_eq
  intro j
  rw [Nat.testBit_ldiff]
  cases j with
  | zero =>
    by_cases h : i % 2 = 0
    · simp [h, Nat.testBit_zero]
    · have : i % 2 = 1 := by omega
      simp [h, Nat.testBit_zero, this]
  | succ j =>
    have h1 : Nat.testBit 1 (j + 1) = false := by
      simp [Nat.testBit_succ]
    by_cases h : i % 2 = 0
    · simp [h, h1]
    · simp [h, h1]

/-- The arithmetic reading of `^i&1` agrees with the bitwise operations on integers. -/
theorem notAnd1_eq_land (i : Nat) :
    notAnd1 i = Int.toNat (Int.land (Int.not (Int.ofNat i)) 1) := by
  have h : Int.land (Int.not (Int.ofNat i)) 1 = Int.ofNat (Nat.ldiff 1 i) := rfl
  rw [h, ldiff_one]
  unfold notAnd1
  by_cases hi : i % 2 = 0
  · simp only [hi, if_true]
    have : (-(Int.ofNat i) - 1) % 2 = 1 := by
      have : (Int.ofNat i) % 2 = 0 := by
        simp only [Int.ofNat_eq_coe]; omega
      omega
    rw [this]; rfl
  · simp only [hi, if_false]
    have : (-(Int.ofNat i) - 1) % 2 = 0 := by
      have : (Int.ofNat i) % 2 = 1 := by
        simp only [Int.ofNat_eq_coe]; omega
      omega
    rw [this]; rfl

/-! ## The claims -/

theorem podPlacement_eq_none_iff (env : Env) (ref : String) :
    podPlacement env ref = none ↔
      (env.NetworkPodToNodeMap (env.ConnPodInterfaceNames ref).1 = none ∨
        ∃ p2n, env.NetworkPodToNodeMap (env.ConnPodInterfaceNames ref).1 = some p2n ∧
          (p2n.Node = "" ∨ env.NetworkNodeExists p2n.Node = false)) := by
  unfold podPlacement
  cases hp : env.NetworkPodToNodeMap (env.ConnPodInterfaceNames ref).1 with
  | none => simp
  | some p2n =>
    by_cases hn : p2n.Node = ""
    · simp [hn]
    · by_cases he : env.NetworkNodeExists p2n.Node = false
      · simp [hn, he]
      · simp [hn, he]

/-- C1: a connection that resolves fewer than two endpoints is not rejected.  With no
reference at all, whatever the collaborators, `RenderConnL2PP` invokes the same-node
renderer on the host `""` with two nil endpoints, and the renderer panics on the first
dereference; a single placed workload reference without overlay panics while formatting
the message, and with a known overlay it reaches the inter-node renderer with a nil second
endpoint. -/
theorem C1_fewer_than_two_endpoints_not_rejected :
    (∀ (env : Env) (ns : NetworkService) (connIndex : Nat) (st : St)
        (overlay method : String),
      RenderConnL2PP env ns ⟨[], [], [], overlay, method⟩ connIndex st =
        ⟨Outcome.panic, st.log (Call.renderConnL2PPSameNode "" [none, none] ["", ""])⟩) ∧
    RenderConnL2PP demoEnv svcA ⟨["podX/eth0"], [], [], "", ""⟩ 0 st0 =
      ⟨Outcome.panic, st0⟩ ∧
    (RenderConnL2PP demoEnv svcA ⟨["podX/eth0"], [], [], "ov1", ""⟩ 0 st0).st.trace =
      [Call.NetworkNodeOverlayR "ov1",
        Call.renderConnL2PPInterNode ⟨⟨"ov1"⟩, ⟨"vxlan", "mesh"⟩⟩
          [some ⟨"eth0", "veth", "podX"⟩, none] [⟨"podX", "node1"⟩, ⟨"", ""⟩]
          ["vppcontainer", ""],
        Call.RenderConnInterfacePair "node1" (some ⟨"eth0", "veth", "podX"⟩) "vppcontainer",
        Call.RenderConnInterfacePair "" none ""] := by
  refine ⟨?_, by decide, by decide⟩
  intro env ns connIndex st overlay method
  simp [RenderConnL2PP, resolveRefs, podInterfacesLoop, nodeInterfacesLoop, Locals.init,
    nodeInterfaceLabelsStep, renderResolved, nodeAt, renderConnL2PPSameNode, getIf]

/-- C2 (counterexample): three workload references, none of them placed, fail with the
placement error and not with the error for too many segments; and three workload
references of which the first is placed and names an interface its pod does not have end
in a panic on the nil interface, not in an error. -/
theorem C2_counterexample :
    3 ≤ (["podU/eth0", "podU/eth0", "podU/eth0"] : List String).length + 0 ∧
    (RenderConnL2PP demoEnv svcA ⟨["podU/eth0", "podU/eth0", "podU/eth0"], [], [], "", ""⟩
      0 st0).outcome = Outcome.error (placementIncompleteMsg svcA) ∧
    (RenderConnL2PP demoEnv svcA ⟨["podU/eth0", "podU/eth0", "podU/eth0"], [], [], "", ""⟩
      0 st0).outcome ≠ Outcome.error tooManySegmentsMsg ∧
    (RenderConnL2PP demoEnv svcA ⟨["podX/nosuch", "podY/eth0", "podW/eth0"], [], [], "", ""⟩
      0 st0).outcome = Outcome.panic := by
  decide

/-- C2 (amended): when the references of a connection total three or more and every
interface lookup that the loops make returns an interface, `RenderConnL2PP` fails, logs no
call, renders no entry and changes no interface state.  The error is the one for too many
segments when some reference is met after two endpoints are already resolved, which is so
in particular when three or more references resolve (workload references with a placement,
plus host references); it is the placement error otherwise.  The hypothesis on the
lookups excludes the calls that panic and no other
(`RenderConnL2PP_panic_of_failed_lookup`). -/
theorem C2_too_many_segments (env : Env) (ns : NetworkService) (conn : Connection)
    (connIndex : Nat) (st : St) (hl : MadeLookupsSucceed env conn)
    (h3 : 3 ≤ conn.PodInterfaces.length + conn.NodeInterfaces.length) :
    (MetAfterTwoResolved env conn →
      (RenderConnL2PP env ns conn connIndex st).outcome =
        Outcome.error tooManySegmentsMsg) ∧
    (3 ≤ placedCount env conn.PodInterfaces + conn.NodeInterfaces.length →
      (RenderConnL2PP env ns conn connIndex st).outcome =
        Outcome.error tooManySegmentsMsg) ∧
    (¬ MetAfterTwoResolved env conn →
      (RenderConnL2PP env ns conn connIndex st).outcome =
        Outcome.error (placementIncompleteMsg ns)) ∧
    SameButMsgs st (RenderConnL2PP env ns conn connIndex st).st := by
  cases hr : resolveRefs env conn st with
  | ret o st2 =>
    rw [RenderConnL2PP_of_ret env ns conn connIndex st o st2 hr]
    obtain ⟨hf, _⟩ := resolveRefs_ret env conn st o st2 hr
    rcases resolveRefs_ret_guard env conn st o st2 hr with ⟨ho, hm⟩ | ⟨_, hn⟩
    · exact ⟨fun _ => ho, fun _ => ho, fun h => absurd hm h, hf⟩
    · exact absurd hl hn
  | next l2 st2 =>
    obtain ⟨hf, hi, hb, _, _, _, _, hall⟩ := resolveRefs_next env conn st l2 st2 hr
    have hnm := resolveRefs_next_guard env conn st l2 st2 hr
    have hfalse : l2.allPodsAssignedToNodes = false := by
      cases hv : l2.allPodsAssignedToNodes with
      | false => rfl
      | true =>
        have := placedCount_eq_length env conn.PodInterfaces (hall hv).2
        omega
    rw [RenderConnL2PP_of_unplaced env ns conn connIndex st l2 st2 hr hfalse]
    exact ⟨fun h => absurd h hnm,
      fun h => absurd (metAfterTwoResolved_of_three env conn h) hnm,
      fun _ => rfl, hf.trans (sameButMsgs_append st2 _)⟩

/-- C2 (witness): two placed workload references followed by a third whose interface does
not exist (its lookup is never made) fail with the error for too many segments; an
unplaced workload reference followed by two placed ones fails with the placement error;
two placed workload references and a host reference, three resolving references, fail with
the error for too many segments. -/
theorem C2_too_many_segments_witness :
    (MadeLookupsSucceed demoEnv ⟨["podX/eth0", "podY/eth0", "podX/nosuch"], [], [], "", ""⟩ ∧
      MetAfterTwoResolved demoEnv
        ⟨["podX/eth0", "podY/eth0", "podX/nosuch"], [], [], "", ""⟩ ∧
      (RenderConnL2PP demoEnv svcA ⟨["podX/eth0", "podY/eth0", "podX/nosuch"], [], [], "", ""⟩
        0 st0).outcome = Outcome.error tooManySegmentsMsg) ∧
    (¬ MetAfterTwoResolved demoEnv
        ⟨["podU/eth0", "podX/eth0", "podY/eth0"], [], [], "", ""⟩ ∧
      (RenderConnL2PP demoEnv svcA ⟨["podU/eth0", "podX/eth0", "podY/eth0"], [], [], "", ""⟩
        0 st0).outcome = Outcome.error (placementIncompleteMsg svcA)) ∧
    (3 ≤ placedCount demoEnv connThreeRefs.PodInterfaces +
        connThreeRefs.NodeInterfaces.length ∧
      (RenderConnL2PP demoEnv svcA connThreeRefs 0 st0).outcome =
        Outcome.error tooManySegmentsMsg) :=
  ⟨⟨by decide, by decide,
      (C2_too_many_segments demoEnv svcA
        ⟨["podX/eth0", "podY/eth0", "podX/nosuch"], [], [], "", ""⟩ 0 st0 (by decide)
        (by decide)).1 (by decide)⟩,
    ⟨by decide,
      (C2_too_many_segments demoEnv svcA
        ⟨["podU/eth0", "podX/eth0", "podY/eth0"], [], [], "", ""⟩ 0 st0 (by decide)
        (by decide)).2.2.1 (by decide)⟩,
    ⟨by decide,
      (C2_too_many_segments demoEnv svcA connThreeRefs 0 st0 (by decide) (by decide)).2.1
        (by decide)⟩⟩

/-- C3 (counterexample): two placed workload references followed by an unplaced one fail
with the error for too many segments, not with the placement error; and a placed workload
reference that names an interface its pod does not have, followed by an unplaced one, ends
in a panic on the nil interface, not in an error. -/
theorem C3_counterexample :
    demoEnv.NetworkPodToNodeMap (demoEnv.ConnPodInterfaceNames "podU/eth0").1 = none ∧
    (RenderConnL2PP demoEnv svcA ⟨["podX/eth0", "podY/eth0", "podU/eth0"], [], [], "", ""⟩
      0 st0).outcome = Outcome.error tooManySegmentsMsg ∧
    (RenderConnL2PP demoEnv svcA ⟨["podX/eth0", "podY/eth0", "podU/eth0"], [], [], "", ""⟩
      0 st0).outcome ≠ Outcome.error (placementIncompleteMsg svcA) ∧
    (RenderConnL2PP demoEnv svcA ⟨["podX/nosuch", "podU/eth0"], [], [], "", ""⟩
      0 st0).outcome = Outcome.panic := by
  decide

/-- C3 (amended): when some workload reference has no placement-directory entry, an empty
host or a host missing from the host registry, and every interface lookup that the loops
make returns an interface, `RenderConnL2PP` fails, logs no call, renders no entry and
changes no interface state.  The error is the placement error unless some reference is met
after two endpoints are already resolved, which cannot be when the references total at
most two; in that case it is the error for too many segments.  The hypothesis on the
lookups excludes the calls that panic and no other
(`RenderConnL2PP_panic_of_failed_lookup`). -/
theorem C3_placement_incomplete (env : Env) (ns : NetworkService) (conn : Connection)
    (connIndex : Nat) (st : St) (hl : MadeLookupsSucceed env conn)
    (hu : ∃ ref ∈ conn.PodInterfaces,
      env.NetworkPodToNodeMap (env.ConnPodInterfaceNames ref).1 = none ∨
        ∃ p2n, env.NetworkPodToNodeMap (env.ConnPodInterfaceNames ref).1 = some p2n ∧
          (p2n.Node = "" ∨ env.NetworkNodeExists p2n.Node = false)) :
    (¬ MetAfterTwoResolved env conn →
      (RenderConnL2PP env ns conn connIndex st).outcome =
        Outcome.error (placementIncompleteMsg ns)) ∧
    (conn.PodInterfaces.length + conn.NodeInterfaces.length ≤ 2 →
      (RenderConnL2PP env ns conn connIndex st).outcome =
        Outcome.error (placementIncompleteMsg ns)) ∧
    (MetAfterTwoResolved env conn →
      (RenderConnL2PP env ns conn connIndex st).outcome =
        Outcome.error tooManySegmentsMsg) ∧
    SameButMsgs st (RenderConnL2PP env ns conn connIndex st).st := by
  obtain ⟨ref, hmem, hnone⟩ := hu
  rw [← podPlacement_eq_none_iff] at hnone
  cases hr : resolveRefs env conn st with
  | ret o st2 =>
    rw [RenderConnL2PP_of_ret env ns conn connIndex st o st2 hr]
    obtain ⟨hf, _⟩ := resolveRefs_ret env conn st o st2 hr
    rcases resolveRefs_ret_guard env conn st o st2 hr with ⟨ho, hm⟩ | ⟨_, hn⟩
    · exact ⟨fun h => absurd hm h,
        fun h => absurd hm (not_metAfterTwoResolved_of_le_two env conn h),
        fun _ => ho, hf⟩
    · exact absurd hl hn
  | next l2 st2 =>
    obtain ⟨hf, _, _, _, _, _, _, hall⟩ := resolveRefs_next env conn st l2 st2 hr
    have hnm := resolveRefs_next_guard env conn st l2 st2 hr
    have hfalse : l2.allPodsAssignedToNodes = false := by
      cases hv : l2.allPodsAssignedToNodes with
      | false => rfl
      | true =>
        have := (hall hv).2 ref hmem
        rw [hnone] at this
        simp at this
    rw [RenderConnL2PP_of_unplaced env ns conn connIndex st l2 st2 hr hfalse]
    exact ⟨fun _ => rfl, fun _ => rfl, fun h => absurd h hnm,
      hf.trans (sameButMsgs_append st2 _)⟩

/-- C3 (witness): a placed workload reference and one on an unregistered host fail with the
placement error, and so does a single unplaced reference whose interface does not exist
(its lookup is never made); two placed references followed by an unplaced one fail with
the error for too many segments. -/
theorem C3_placement_incomplete_witness :
    (MadeLookupsSucceed demoEnv connUnregisteredHost ∧
      demoEnv.NetworkNodeExists "node9" = false ∧
      (RenderConnL2PP demoEnv svcA connUnregisteredHost 0 st0).outcome =
        Outcome.error (placementIncompleteMsg svcA)) ∧
    (MadeLookupsSucceed demoEnv ⟨["podU/nosuch"], [], [], "", ""⟩ ∧
      (RenderConnL2PP demoEnv svcA ⟨["podU/nosuch"], [], [], "", ""⟩ 0 st0).outcome =
        Outcome.error (placementIncompleteMsg svcA)) ∧
    (MetAfterTwoResolved demoEnv ⟨["podX/eth0", "podY/eth0", "podU/eth0"], [], [], "", ""⟩ ∧
      (RenderConnL2PP demoEnv svcA ⟨["podX/eth0", "podY/eth0", "podU/eth0"], [], [], "", ""⟩
        0 st0).outcome = Outcome.error tooManySegmentsMsg) :=
  ⟨⟨by decide, by decide,
      (C3_placement_incomplete demoEnv svcA connUnregisteredHost 0 st0 (by decide)
        (by decide)).1 (by decide)⟩,
    ⟨by decide,
      (C3_placement_incomplete demoEnv svcA ⟨["podU/nosuch"], [], [], "", ""⟩ 0 st0
        (by decide) (by decide)).2.1 (by decide)⟩,
    ⟨by decide,
      (C3_placement_incomplete demoEnv svcA
        ⟨["podX/eth0", "podY/eth0", "podU/eth0"], [], [], "", ""⟩ 0 st0 (by decide)
        (by decide)).2.2.1 (by decide)⟩⟩

/-- C4: with exactly one endpoint resolved and exactly one label entry, a lookup (on the
host of the first endpoint) that returns exactly one interface and its type fills the
second slot with that interface, its type, and the first endpoint's host as parent and as
host, and the connection is rendered by the same-node renderer on that host; a lookup that
returns zero or several interfaces fails with the ambiguous-label error after the lookup
alone. -/
theorem C4_label_fills_second_endpoint (env : Env) (ns : NetworkService)
    (conn : Connection) (connIndex : Nat) (st : St) (l2 : Locals) (st2 : St)
    (hres : resolveRefs env conn st = Flow.next l2 st2)
    (hall : l2.allPodsAssignedToNodes = true)
    (hidx : l2.ifIndex = 1)
    (hlab : conn.NodeInterfaceLabels.length = 1) :
    (∀ (iface : Interface) (ty : String) (tys : List String),
      env.FindInterfacesForThisLabelInNode (nodeAt l2.p2nArray 0) conn.NodeInterfaceLabels =
        ([some iface], ty :: tys) →
      ∃ l3 : Locals,
        nodeInterfaceLabelsStep env ns conn l2 st2 =
          Flow.next l3
            (st.log (Call.FindInterfacesForThisLabelInNode (nodeAt l2.p2nArray 0)
              conn.NodeInterfaceLabels)) ∧
        getIf l3.netPodInterfaces 0 = getIf l2.netPodInterfaces 0 ∧
        getIf l3.netPodInterfaces 1 =
          some ⟨iface.Name, iface.IfType, nodeAt l2.p2nArray 0⟩ ∧
        l3.networkPodTypes.get? 1 = some ty ∧
        l3.p2nArray.get? 0 = l2.p2nArray.get? 0 ∧
        l3.p2nArray.get? 1 = some ⟨nodeAt l2.p2nArray 0, nodeAt l2.p2nArray 0⟩ ∧
        RenderConnL2PP env ns conn connIndex st =
          renderConnL2PPSameNode env ns (nodeAt l2.p2nArray 0) conn l3.netPodInterfaces
            l3.networkPodTypes
            (st.log (Call.FindInterfacesForThisLabelInNode (nodeAt l2.p2nArray 0)
              conn.NodeInterfaceLabels))) ∧
    ((env.FindInterfacesForThisLabelInNode (nodeAt l2.p2nArray 0)
        conn.NodeInterfaceLabels).1.length ≠ 1 →
      RenderConnL2PP env ns conn connIndex st =
        ⟨Outcome.error (ambiguousLabelMsg ns conn.NodeInterfaceLabels),
          AppendStatusMsg
            (st.log (Call.FindInterfacesForThisLabelInNode (nodeAt l2.p2nArray 0)
              conn.NodeInterfaceLabels))
            (ambiguousLabelMsg ns conn.NodeInterfaceLabels)⟩) := by
  obtain ⟨_, _, _, hl1, hl2, hl3, _, hst⟩ := resolveRefs_next env conn st l2 st2 hres
  have hst2 : st2 = st := (hst hall).1
  subst hst2
  obtain ⟨pa, pb, hp⟩ := eq_pair_of_length_two l2.p2nArray hl1
  obtain ⟨ia, ib, hi⟩ := eq_pair_of_length_two l2.netPodInterfaces hl2
  obtain ⟨ta, tb, ht⟩ := eq_pair_of_length_two l2.networkPodTypes hl3
  constructor
  · intro iface ty tys hfound
    have hstep := nodeInterfaceLabelsStep_found env ns conn l2 st2 iface ty tys hidx hlab hfound
    refine ⟨_, hstep, ?_, ?_, ?_, ?_, ?_, ?_⟩
    · simp [hi, getIf]
    · simp [hi, getIf]
    · simp [ht]
    · simp [hp]
    · simp [hp]
    · rw [RenderConnL2PP_of_resolved env ns conn connIndex st2 l2 st2 _ _ hres hall hstep]
      simp [renderResolved, hp, nodeAt]
  · intro hfound
    exact RenderConnL2PP_of_label_ret env ns conn connIndex st2 l2 st2 _ _ hres hall
      (nodeInterfaceLabelsStep_ambiguous env ns conn l2 st2 hidx hlab hfound)

/-- C5: with a non-empty label selector, unless exactly one endpoint is resolved and the
selector has exactly one entry `RenderConnL2PP` returns an error having logged no call (no
label lookup, no renderer), rendered no entry and changed no interface state; and whenever
it logs any call at all, exactly one endpoint was resolved and the selector has exactly
one entry. -/
theorem C5_label_needs_one_endpoint_one_entry (env : Env) (ns : NetworkService)
    (conn : Connection) (connIndex : Nat) (st : St)
    (hne : conn.NodeInterfaceLabels ≠ []) :
    (∀ (l2 : Locals) (st2 : St), resolveRefs env conn st = Flow.next l2 st2 →
      ¬ (l2.ifIndex = 1 ∧ conn.NodeInterfaceLabels.length = 1) →
      (∃ msg, (RenderConnL2PP env ns conn connIndex st).outcome = Outcome.error msg) ∧
        SameButMsgs st (RenderConnL2PP env ns conn connIndex st).st ∧
        callsSince st (RenderConnL2PP env ns conn connIndex st) = []) ∧
    (callsSince st (RenderConnL2PP env ns conn connIndex st) ≠ [] →
      ∃ (l2 : Locals) (st2 : St), resolveRefs env conn st = Flow.next l2 st2 ∧
        l2.ifIndex = 1 ∧ conn.NodeInterfaceLabels.length = 1) := by
  have key : ∀ (l2 : Locals) (st2 : St), resolveRefs env conn st = Flow.next l2 st2 →
      ¬ (l2.ifIndex = 1 ∧ conn.NodeInterfaceLabels.length = 1) →
      (∃ msg, (RenderConnL2PP env ns conn connIndex st).outcome = Outcome.error msg) ∧
        SameButMsgs st (RenderConnL2PP env ns conn connIndex st).st := by
    intro l2 st2 hres hnot
    obtain ⟨hf, _⟩ := resolveRefs_next env conn st l2 st2 hres
    cases hv : l2.allPodsAssignedToNodes with
    | false =>
      rw [RenderConnL2PP_of_unplaced env ns conn connIndex st l2 st2 hres hv]
      exact ⟨⟨_, rfl⟩, hf.trans (sameButMsgs_append st2 _)⟩
    | true =>
      obtain ⟨msg, hstep⟩ := nodeInterfaceLabelsStep_misuse env ns conn l2 st2 hne hnot
      rw [RenderConnL2PP_of_label_ret env ns conn connIndex st l2 st2 _ _ hres hv hstep]
      exact ⟨⟨_, rfl⟩, hf.trans (sameButMsgs_append st2 _)⟩
  constructor
  · intro l2 st2 hres hnot
    obtain ⟨h1, h2⟩ := key l2 st2 hres hnot
    exact ⟨h1, h2, callsSince_eq_nil _ _ h2.1⟩
  · intro hcalls
    cases hr : resolveRefs env conn st with
    | ret o st2 =>
      exfalso
      apply hcalls
      rw [RenderConnL2PP_of_ret env ns conn connIndex st o st2 hr]
      exact callsSince_eq_nil _ _ (resolveRefs_ret env conn st o st2 hr).1.1
    | next l2 st2 =>
      by_cases hc : l2.ifIndex = 1 ∧ conn.NodeInterfaceLabels.length = 1
      · exact ⟨l2, st2, rfl, hc.1, hc.2⟩
      · exact absurd (callsSince_eq_nil _ _ (key l2 st2 hr hc).2.1) hcalls

/-- C6: when resolution passes for a connection with a host-interface reference or a
label selector and the hosts of the two slots differ, `RenderConnL2PP` fails with the
host-mismatch error having logged no call: the overlay registry is not consulted and the
inter-node renderer is not invoked. -/
theorem C6_static_host_mismatch (env : Env) (ns : NetworkService) (conn : Connection)
    (connIndex : Nat) (st : St) (l2 : Locals) (st2 : St) (l3 : Locals) (st3 : St)
    (hres : resolveRefs env conn st = Flow.next l2 st2)
    (hall : l2.allPodsAssignedToNodes = true)
    (hlab : nodeInterfaceLabelsStep env ns conn l2 st2 = Flow.next l3 st3)
    (hstatic : conn.NodeInterfaces ≠ [] ∨ conn.NodeInterfaceLabels ≠ [])
    (hdiff : nodeAt l3.p2nArray 0 ≠ nodeAt l3.p2nArray 1) :
    RenderConnL2PP env ns conn connIndex st =
      ⟨Outcome.error (hostMismatchMsg ns (nodeAt l3.p2nArray 0) (nodeAt l3.p2nArray 1)),
        AppendStatusMsg st
          (hostMismatchMsg ns (nodeAt l3.p2nArray 0) (nodeAt l3.p2nArray 1))⟩ ∧
    callsSince st (RenderConnL2PP env ns conn connIndex st) = [] := by
  obtain ⟨_, _, _, hl1, _, _, hstat, hst⟩ := resolveRefs_next env conn st l2 st2 hres
  obtain ⟨hnil, hsame⟩ := nodeInterfaceLabelsStep_next env ns conn l2 st2 l3 st3 hlab hl1
  have hlabels : conn.NodeInterfaceLabels = [] := by
    by_contra hne
    exact hdiff (hsame hne)
  have hnodes : conn.NodeInterfaces ≠ [] := by
    rcases hstatic with h | h
    · exact h
    · exact absurd hlabels h
  obtain ⟨h3, hst3⟩ := hnil hlabels
  have hst2 : st2 = st := (hst hall).1
  subst h3
  subst hst3
  subst hst2
  have hflag : l3.staticNodesInInterfacesSpecified = true := hstat.mpr hnodes
  have heq : RenderConnL2PP env ns conn connIndex st3 =
      ⟨Outcome.error (hostMismatchMsg ns (nodeAt l3.p2nArray 0) (nodeAt l3.p2nArray 1)),
        AppendStatusMsg st3
          (hostMismatchMsg ns (nodeAt l3.p2nArray 0) (nodeAt l3.p2nArray 1))⟩ := by
    rw [RenderConnL2PP_of_resolved env ns conn connIndex st3 l3 st3 l3 st3 hres hall hlab]
    simp [renderResolved, hdiff, hflag]
  refine ⟨heq, ?_⟩
  rw [heq]
  exact callsSince_eq_nil _ _ rfl

/-- An iteration of the pod loop on a placed pod whose interface is found. -/
theorem podInterfaceStep_resolved (env : Env) (i : Nat) (ref : String) (l : Locals) (st : St)
    (p2n : NetworkPodToNodeMap) (iface : Interface) (ty : String) (hlt : l.ifIndex < 2)
    (hp : podPlacement env ref = some p2n)
    (hf : env.findNetworkPodAndInterfaceInList (env.ConnPodInterfaceNames ref).1
      (env.ConnPodInterfaceNames ref).2 = (some iface, ty)) :
    podInterfaceStep env i ref l st =
      Flow.next
        { l with
          p2nArray := l.p2nArray.set l.ifIndex p2n,
          netPodInterfaces :=
            l.netPodInterfaces.set l.ifIndex
              (some { iface with Parent := (env.ConnPodInterfaceNames ref).1 }),
          networkPodTypes := l.networkPodTypes.set l.ifIndex ty,
          ifIndex := l.ifIndex + 1 }
        st := by
  rcases podInterfaceStep_cases env i ref l st with
    ⟨h2, _⟩ | ⟨_, hn, _⟩ | ⟨_, _, hn, _⟩ | ⟨_, p, i1, t1, hp1, hf1, hs⟩
  · omega
  · rw [hp] at hn; simp at hn
  · rw [hf] at hn; simp at hn
  · rw [hp] at hp1
    rw [hf] at hf1
    simp only [Option.some.injEq, Prod.mk.injEq] at hp1 hf1
    obtain ⟨rfl, rfl⟩ := hf1
    subst hp1
    exact hs

/-- C7: for a connection of two workload references, both placed and both with their
interface found, without host reference and without label selector: on equal hosts the
same-node renderer is invoked on that host and the overlay registry is not consulted; on
different hosts an empty overlay name gives the missing-overlay error, a name unknown to
the registry gives the unknown-overlay error, and otherwise the inter-node renderer is
invoked with the overlay the registry returned. -/
theorem C7_two_workload_endpoints (env : Env) (ns : NetworkService) (conn : Connection)
    (connIndex : Nat) (st : St) (ref0 ref1 : String) (p0 p1 : NetworkPodToNodeMap)
    (i0 i1 : Interface) (t0 t1 : String)
    (hpods : conn.PodInterfaces = [ref0, ref1])
    (hnodes : conn.NodeInterfaces = [])
    (hlabels : conn.NodeInterfaceLabels = [])
    (hp0 : podPlacement env ref0 = some p0)
    (hp1 : podPlacement env ref1 = some p1)
    (hf0 : env.findNetworkPodAndInterfaceInList (env.ConnPodInterfaceNames ref0).1
      (env.ConnPodInterfaceNames ref0).2 = (some i0, t0))
    (hf1 : env.findNetworkPodAndInterfaceInList (env.ConnPodInterfaceNames ref1).1
      (env.ConnPodInterfaceNames ref1).2 = (some i1, t1)) :
    (p0.Node = p1.Node →
      RenderConnL2PP env ns conn connIndex st =
        renderConnL2PPSameNode env ns p0.Node conn
          [some ⟨i0.Name, i0.IfType, (env.ConnPodInterfaceNames ref0).1⟩,
            some ⟨i1.Name, i1.IfType, (env.ConnPodInterfaceNames ref1).1⟩]
          [t0, t1] st) ∧
    (p0.Node ≠ p1.Node → conn.NetworkNodeOverlayName = "" →
      RenderConnL2PP env ns conn connIndex st =
        ⟨Outcome.error
            (missingOverlayMsg ns ⟨i0.Name, i0.IfType, (env.ConnPodInterfaceNames ref0).1⟩
              ⟨i1.Name, i1.IfType, (env.ConnPodInterfaceNames ref1).1⟩),
          AppendStatusMsg st
            (missingOverlayMsg ns ⟨i0.Name, i0.IfType, (env.ConnPodInterfaceNames ref0).1⟩
              ⟨i1.Name, i1.IfType, (env.ConnPodInterfaceNames ref1).1⟩)⟩) ∧
    (p0.Node ≠ p1.Node → conn.NetworkNodeOverlayName ≠ "" →
      env.NetworkNodeOverlayR conn.NetworkNodeOverlayName = none →
      RenderConnL2PP env ns conn connIndex st =
        ⟨Outcome.error
            (unknownOverlayMsg ns ⟨i0.Name, i0.IfType, (env.ConnPodInterfaceNames ref0).1⟩
              ⟨i1.Name, i1.IfType, (env.ConnPodInterfaceNames ref1).1⟩
              conn.NetworkNodeOverlayName),
          AppendStatusMsg (st.log (Call.NetworkNodeOverlayR conn.NetworkNodeOverlayName))
            (unknownOverlayMsg ns ⟨i0.Name, i0.IfType, (env.ConnPodInterfaceNames ref0).1⟩
              ⟨i1.Name, i1.IfType, (env.ConnPodInterfaceNames ref1).1⟩
              conn.NetworkNodeOverlayName)⟩) ∧
    (∀ nno : NetworkNodeOverlay, p0.Node ≠ p1.Node → conn.NetworkNodeOverlayName ≠ "" →
      env.NetworkNodeOverlayR conn.NetworkNodeOverlayName = some nno →
      RenderConnL2PP env ns conn connIndex st =
        renderConnL2PPInterNode env ns conn connIndex
          [some ⟨i0.Name, i0.IfType, (env.ConnPodInterfaceNames ref0).1⟩,
            some ⟨i1.Name, i1.IfType, (env.ConnPodInterfaceNames ref1).1⟩]
          nno [p0, p1] [t0, t1]
          (st.log (Call.NetworkNodeOverlayR conn.NetworkNodeOverlayName))) := by
  have hres : resolveRefs env conn st =
      Flow.next
        { p2nArray := [p0, p1],
          netPodInterfaces :=
            [some ⟨i0.Name, i0.IfType, (env.ConnPodInterfaceNames ref0).1⟩,
              some ⟨i1.Name, i1.IfType, (env.ConnPodInterfaceNames ref1).1⟩],
          networkPodTypes := [t0, t1],
          allPodsAssignedToNodes := true,
          staticNodesInInterfacesSpecified := false,
          ifIndex := 2 } st := by
    unfold resolveRefs
    rw [hpods, hnodes, podInterfacesLoop,
      podInterfaceStep_resolved env 0 ref0 Locals.init st p0 i0 t0 (by simp [Locals.init])
        hp0 hf0]
    simp only
    rw [podInterfacesLoop,
      podInterfaceStep_resolved env 1 ref1 _ st p1 i1 t1 (by simp [Locals.init]) hp1 hf1]
    simp [podInterfacesLoop, nodeInterfacesLoop, Locals.init]
  have hR := RenderConnL2PP_of_resolved env ns conn connIndex st _ st _ st hres rfl
    (nodeInterfaceLabelsStep_nil env ns conn _ st hlabels)
  rw [hR]
  refine ⟨?_, ?_, ?_, ?_⟩
  · intro h
    simp [renderResolved, nodeAt, h]
  · intro h ho
    simp [renderResolved, nodeAt, h, ho, getIf]
  · intro h ho hn
    simp [renderResolved, nodeAt, h, ho, hn, getIf]
  · intro nno h ho hn
    simp [renderResolved, nodeAt, h, ho, hn]

/-- C8: for two endpoints with the same parent and different interface names,
`renderConnL2PPSameNode` returns nil and does exactly this: it appends the cross-connect
from the first interface to the second and then the one from the second to the first,
both on the parent and under the key of the service; no interface creation and no direct
pairing is logged, whatever the interface types and the method. -/
theorem C8_loopback_two_xconnects (env : Env) (ns : NetworkService) (vppAgent : String)
    (conn : Connection) (ifs : List (Option Interface)) (types : List String) (st : St)
    (a b : Interface) (h0 : getIf ifs 0 = some a) (h1 : getIf ifs 1 = some b)
    (hp : a.Parent = b.Parent) (hn : a.Name ≠ b.Name) :
    renderConnL2PPSameNode env ns vppAgent conn ifs types st =
      ⟨Outcome.ok,
        { world :=
            { st.world with
              RenderedVppAgentEntries :=
                st.world.RenderedVppAgentEntries ++
                  [(env.ModelTypeNetworkService ++ "/" ++ ns.Metadata.Name,
                      ConstructXConnect a.Parent a.Name b.Name),
                    (env.ModelTypeNetworkService ++ "/" ++ ns.Metadata.Name,
                      ConstructXConnect a.Parent b.Name a.Name)] },
          trace :=
            st.trace ++
              [Call.renderConnL2PPSameNode vppAgent ifs types,
                Call.renderConnL2PPSameVnf ifs,
                Call.RenderTxnAddVppEntriesToTxn
                  (env.ModelTypeNetworkService ++ "/" ++ ns.Metadata.Name)
                  (ConstructXConnect a.Parent a.Name b.Name),
                Call.RenderTxnAddVppEntriesToTxn
                  (env.ModelTypeNetworkService ++ "/" ++ ns.Metadata.Name)
                  (ConstructXConnect a.Parent b.Name a.Name)] }⟩ := by
  simp [renderConnL2PPSameNode, renderConnL2PPSameVnf, sameVnfLoop, h0, h1, hp, hn,
    notAnd1_zero, notAnd1_one, RenderTxnAddVppEntriesToTxn, St.log]

/-- The method is the default one: the hint is empty or names the direct method. -/
theorem memifConnType_direct_iff (method : String) :
    (if method = "" then ConnMethodDirect else method) = ConnMethodDirect ↔
      (method = "" ∨ method = ConnMethodDirect) := by
  by_cases h : method = ""
  · simp [h]
  · simp [h]

/-- The result of `renderConnL2PPSameNode` in the direct branch. -/
theorem renderConnL2PPSameNode_direct (env : Env) (ns : NetworkService) (vppAgent : String)
    (conn : Connection) (ifs : List (Option Interface)) (types : List String) (st : St)
    (a b : Interface) (h0 : getIf ifs 0 = some a) (h1 : getIf ifs 1 = some b)
    (hnl : ¬ (a.Parent = b.Parent ∧ a.Name ≠ b.Name))
    (hd : a.IfType = IfTypeMemif ∧ b.IfType = IfTypeMemif ∧
      (conn.ConnMethod = "" ∨ conn.ConnMethod = ConnMethodDirect)) :
    renderConnL2PPSameNode env ns vppAgent conn ifs types st =
      ⟨(match (env.RenderConnDirectInterPodMemifPair st.world ns ifs IfTypeMemif).1 with
          | some err => Outcome.error err
          | none => Outcome.ok),
        { world := (env.RenderConnDirectInterPodMemifPair st.world ns ifs IfTypeMemif).2,
          trace := st.trace ++
            [Call.renderConnL2PPSameNode vppAgent ifs types,
              Call.RenderConnDirectInterPodMemifPair ifs IfTypeMemif] }⟩ := by
  obtain ⟨ha, hb, hm⟩ := hd
  have hm1 := (memifConnType_direct_iff conn.ConnMethod).mpr hm
  have hab : a.IfType = b.IfType := ha.trans hb.symm
  unfold renderConnL2PPSameNode
  simp only [h0, h1, hnl, if_false]
  rw [if_pos ⟨hab, ha, hm1⟩]
  simp only [St.log]
  rcases hc : env.RenderConnDirectInterPodMemifPair st.world ns ifs IfTypeMemif with
    ⟨_ | err, w⟩
  · simp
  · simp

/-- The result of `renderConnL2PPSameNode` in the switch branch. -/
theorem renderConnL2PPSameNode_switch (env : Env) (ns : NetworkService) (vppAgent : String)
    (conn : Connection) (ifs : List (Option Interface)) (types : List String) (st : St)
    (a b : Interface) (h0 : getIf ifs 0 = some a) (h1 : getIf ifs 1 = some b)
    (hnl : ¬ (a.Parent = b.Parent ∧ a.Name ≠ b.Name))
    (hnd : ¬ (a.IfType = IfTypeMemif ∧ b.IfType = IfTypeMemif ∧
      (conn.ConnMethod = "" ∨ conn.ConnMethod = ConnMethodDirect))) :
    renderConnL2PPSameNode env ns vppAgent conn ifs types st =
      switchXConnects env ns vppAgent conn ifs types
        (memifIDCheck a b (st.log (Call.renderConnL2PPSameNode vppAgent ifs types))) := by
  have hcond : ¬ (a.IfType = b.IfType ∧ a.IfType = IfTypeMemif ∧
      (if conn.ConnMethod = "" then ConnMethodDirect else conn.ConnMethod) =
        ConnMethodDirect) := by
    rintro ⟨hab, ha, hm⟩
    exact hnd ⟨ha, hab ▸ ha, (memifConnType_direct_iff conn.ConnMethod).mp hm⟩
  unfold renderConnL2PPSameNode
  simp only [h0, h1, hnl, if_false]
  rw [if_neg hcond]

/-- C9: for two endpoints that are not the loopback case, `renderConnL2PPSameNode` takes
the direct branch exactly when both interface types are memif and the method is empty or
direct.  In that branch the direct pairing is invoked once, on the world as it was, its
result is the result, and nothing else is logged (no interface creation, no entry
append); in every other case the switch branch runs after the identifier check and no
direct pairing is logged. -/
theorem C9_direct_branch_iff (env : Env) (ns : NetworkService) (vppAgent : String)
    (conn : Connection) (ifs : List (Option Interface)) (types : List String) (st : St)
    (a b : Interface) (h0 : getIf ifs 0 = some a) (h1 : getIf ifs 1 = some b)
    (hnl : ¬ (a.Parent = b.Parent ∧ a.Name ≠ b.Name)) :
    ((a.IfType = IfTypeMemif ∧ b.IfType = IfTypeMemif ∧
        (conn.ConnMethod = "" ∨ conn.ConnMethod = ConnMethodDirect)) →
      callsSince st (renderConnL2PPSameNode env ns vppAgent conn ifs types st) =
        [Call.renderConnL2PPSameNode vppAgent ifs types,
          Call.RenderConnDirectInterPodMemifPair ifs IfTypeMemif] ∧
      (renderConnL2PPSameNode env ns vppAgent conn ifs types st).st.world =
        (env.RenderConnDirectInterPodMemifPair st.world ns ifs IfTypeMemif).2 ∧
      (renderConnL2PPSameNode env ns vppAgent conn ifs types st).outcome =
        (match (env.RenderConnDirectInterPodMemifPair st.world ns ifs IfTypeMemif).1 with
          | some err => Outcome.error err
          | none => Outcome.ok)) ∧
    (¬ (a.IfType = IfTypeMemif ∧ b.IfType = IfTypeMemif ∧
        (conn.ConnMethod = "" ∨ conn.ConnMethod = ConnMethodDirect)) →
      renderConnL2PPSameNode env ns vppAgent conn ifs types st =
        switchXConnects env ns vppAgent conn ifs types
          (memifIDCheck a b (st.log (Call.renderConnL2PPSameNode vppAgent ifs types))) ∧
      ∀ c ∈ callsSince st (renderConnL2PPSameNode env ns vppAgent conn ifs types st),
        c = Call.renderConnL2PPSameNode vppAgent ifs types ∨
        (∃ host iface ty, c = Call.RenderConnInterfacePair host iface ty) ∨
        (∃ key kv, c = Call.RenderTxnAddVppEntriesToTxn key kv)) := by
  constructor
  · intro hd
    rw [renderConnL2PPSameNode_direct env ns vppAgent conn ifs types st a b h0 h1 hnl hd]
    exact ⟨callsSince_append _ _ _ rfl, rfl, rfl⟩
  · intro hnd
    have hr := renderConnL2PPSameNode_switch env ns vppAgent conn ifs types st a b h0 h1
      hnl hnd
    refine ⟨hr, ?_⟩
    rw [hr]
    obtain ⟨calls, htr, hkinds⟩ := switchXConnects_trace env ns vppAgent conn ifs types
      (memifIDCheck a b (st.log (Call.renderConnL2PPSameNode vppAgent ifs types)))
    rw [memifIDCheck_trace] at htr
    have hcs := callsSince_append st _ (Call.renderConnL2PPSameNode vppAgent ifs types :: calls)
      (by rw [htr]; simp [St.log])
    rw [hcs]
    intro c hc
    rcases List.mem_cons.mp hc with rfl | hc
    · exact Or.inl rfl
    · exact Or.inr (hkinds c hc)

/-- C10 (counterexample): two memif endpoints of different pods on the same host, default
method, both states holding the identifier 5: the direct pairing is invoked and the two
identifiers are still 5 and 5. -/
theorem C10_counterexample :
    (renderConnL2PPSameNode demoEnv svcA "node1"
      ⟨["podX/memif0", "podY/memif0"], [], [], "", ""⟩
      [some ⟨"memif0", "memif", "podX"⟩, some ⟨"memif0", "memif", "podY"⟩]
      ["vppcontainer", "vppcontainer"]
      ⟨⟨[], [], [("podX/memif0", ⟨5⟩), ("podY/memif0", ⟨5⟩)]⟩, []⟩) =
    ⟨Outcome.ok,
      ⟨⟨[], [], [("podX/memif0", ⟨5⟩), ("podY/memif0", ⟨5⟩)]⟩,
        [Call.renderConnL2PPSameNode "node1"
            [some ⟨"memif0", "memif", "podX"⟩, some ⟨"memif0", "memif", "podY"⟩]
            ["vppcontainer", "vppcontainer"],
          Call.RenderConnDirectInterPodMemifPair
            [some ⟨"memif0", "memif", "podX"⟩, some ⟨"memif0", "memif", "podY"⟩]
            "memif"]⟩⟩ := by
  decide

/-- C10 (amended): for two memif endpoints that are not the loopback case, with the empty
or direct method `renderConnL2PPSameNode` hands the world to the direct pairing as it was,
identifiers included; with any other method, when the states of both interfaces exist and
hold the same identifier, the switch branch starts from a state in which both identifiers
are 0, before any switch-facing interface is created. -/
theorem C10_memif_reset_in_switch_branch (env : Env) (ns : NetworkService)
    (vppAgent : String) (conn : Connection) (ifs : List (Option Interface))
    (types : List String) (st : St) (a b : Interface)
    (h0 : getIf ifs 0 = some a) (h1 : getIf ifs 1 = some b)
    (hnl : ¬ (a.Parent = b.Parent ∧ a.Name ≠ b.Name))
    (ha : a.IfType = IfTypeMemif) (hb : b.IfType = IfTypeMemif) :
    ((conn.ConnMethod = "" ∨ conn.ConnMethod = ConnMethodDirect) →
      (renderConnL2PPSameNode env ns vppAgent conn ifs types st).st.world =
        (env.RenderConnDirectInterPodMemifPair st.world ns ifs IfTypeMemif).2) ∧
    (conn.ConnMethod ≠ "" → conn.ConnMethod ≠ ConnMethodDirect →
      ∀ s0 s1 : InterfaceStatus,
        getState st.world.InterfaceStates (a.Parent ++ "/" ++ a.Name) = some s0 →
        getState st.world.InterfaceStates (b.Parent ++ "/" ++ b.Name) = some s1 →
        s0.MemifID = s1.MemifID →
        ∃ st2 : St,
          renderConnL2PPSameNode env ns vppAgent conn ifs types st =
            switchXConnects env ns vppAgent conn ifs types st2 ∧
          st2.trace = st.trace ++ [Call.renderConnL2PPSameNode vppAgent ifs types] ∧
          st2.world.statusMsgs = st.world.statusMsgs ∧
          st2.world.RenderedVppAgentEntries = st.world.RenderedVppAgentEntries ∧
          getState st2.world.InterfaceStates (a.Parent ++ "/" ++ a.Name) = some ⟨0⟩ ∧
          getState st2.world.InterfaceStates (b.Parent ++ "/" ++ b.Name) = some ⟨0⟩) := by
  constructor
  · intro hm
    rw [renderConnL2PPSameNode_direct env ns vppAgent conn ifs types st a b h0 h1 hnl
      ⟨ha, hb, hm⟩]
  · intro hm1 hm2 s0 s1 hs0 hs1 heq
    have hnd : ¬ (a.IfType = IfTypeMemif ∧ b.IfType = IfTypeMemif ∧
        (conn.ConnMethod = "" ∨ conn.ConnMethod = ConnMethodDirect)) := by
      rintro ⟨_, _, h | h⟩
      · exact hm1 h
      · exact hm2 h
    refine ⟨memifIDCheck a b (st.log (Call.renderConnL2PPSameNode vppAgent ifs types)),
      renderConnL2PPSameNode_switch env ns vppAgent conn ifs types st a b h0 h1 hnl hnd,
      ?_, ?_, ?_, ?_⟩
    · rw [memifIDCheck_trace]; rfl
    · unfold memifIDCheck; split <;> rfl
    · unfold memifIDCheck; split <;> rfl
    · have hc : a.IfType = b.IfType ∧ a.IfType = IfTypeMemif := ⟨ha.trans hb.symm, ha⟩
      have hres := resetEqualMemifIDs_equal st.world.InterfaceStates
        (a.Parent ++ "/" ++ a.Name) (b.Parent ++ "/" ++ b.Name) s0 s1 hs0 hs1 heq
      unfold memifIDCheck
      rw [if_pos hc]
      exact hres

/-- C4 (witness): `podX/eth0` with the label `uplink`, which selects `gig0` on `node1`. -/
theorem C4_label_fills_second_endpoint_witness :
    resolveRefs demoEnv connUplink st0 = Flow.next localsUplink st0 ∧
    localsUplink.allPodsAssignedToNodes = true ∧
    localsUplink.ifIndex = 1 ∧
    connUplink.NodeInterfaceLabels.length = 1 ∧
    ∃ l3 : Locals,
      getIf l3.netPodInterfaces 1 = some ⟨"gig0", "ethernet", "node1"⟩ ∧
      RenderConnL2PP demoEnv svcA connUplink 0 st0 =
        renderConnL2PPSameNode demoEnv svcA "node1" connUplink l3.netPodInterfaces
          l3.networkPodTypes
          (st0.log (Call.FindInterfacesForThisLabelInNode "node1" ["uplink"])) := by
  refine ⟨by decide, by decide, by decide, by decide, ?_⟩
  obtain ⟨l3, _, _, h1, _, _, _, h2⟩ :=
    (C4_label_fills_second_endpoint demoEnv svcA connUplink 0 st0 localsUplink st0
      (by decide) (by decide) (by decide) (by decide)).1
      ⟨"gig0", "ethernet", ""⟩ "host" [] (by decide)
  exact ⟨l3, h1, h2⟩

/-- C5 (witness): two resolved endpoints and a label. -/
theorem C5_label_needs_one_endpoint_one_entry_witness :
    connTwoPodsAndLabel.NodeInterfaceLabels ≠ [] ∧
    resolveRefs demoEnv connTwoPodsAndLabel st0 = Flow.next localsTwoPods st0 ∧
    ((∃ msg, (RenderConnL2PP demoEnv svcA connTwoPodsAndLabel 0 st0).outcome =
        Outcome.error msg) ∧
      SameButMsgs st0 (RenderConnL2PP demoEnv svcA connTwoPodsAndLabel 0 st0).st ∧
      callsSince st0 (RenderConnL2PP demoEnv svcA connTwoPodsAndLabel 0 st0) = []) :=
  ⟨by decide, by decide,
    (C5_label_needs_one_endpoint_one_entry demoEnv svcA connTwoPodsAndLabel 0 st0
      (by decide)).1 localsTwoPods st0 (by decide) (by decide)⟩

/-- C6 (witness): a pod on `node2` wired to an interface of `node1`. -/
theorem C6_static_host_mismatch_witness :
    resolveRefs demoEnv connPodAndHost st0 = Flow.next localsPodAndHost st0 ∧
    nodeInterfaceLabelsStep demoEnv svcA connPodAndHost localsPodAndHost st0 =
      Flow.next localsPodAndHost st0 ∧
    nodeAt localsPodAndHost.p2nArray 0 ≠ nodeAt localsPodAndHost.p2nArray 1 ∧
    (RenderConnL2PP demoEnv svcA connPodAndHost 0 st0).outcome =
      Outcome.error (hostMismatchMsg svcA "node2" "node1") :=
  ⟨by decide, by decide, by decide,
    congrArg Result.outcome
      (C6_static_host_mismatch demoEnv svcA connPodAndHost 0 st0 localsPodAndHost st0
        localsPodAndHost st0 (by decide) (by decide) (by decide) (Or.inl (by decide))
        (by decide)).1⟩

/-- C7 (witness): `podX` on `node1` and `podW` on `node2`, joined by the overlay `ov1`. -/
theorem C7_two_workload_endpoints_witness :
    podPlacement demoEnv "podX/eth0" = some ⟨"podX", "node1"⟩ ∧
    podPlacement demoEnv "podW/eth0" = some ⟨"podW", "node2"⟩ ∧
    demoEnv.NetworkNodeOverlayR "ov1" = some ⟨⟨"ov1"⟩, ⟨"vxlan", "mesh"⟩⟩ ∧
    RenderConnL2PP demoEnv svcA connCrossHost 0 st0 =
      renderConnL2PPInterNode demoEnv svcA connCrossHost 0
        [some ⟨"eth0", "veth", "podX"⟩, some ⟨"eth0", "veth", "podW"⟩]
        ⟨⟨"ov1"⟩, ⟨"vxlan", "mesh"⟩⟩ [⟨"podX", "node1"⟩, ⟨"podW", "node2"⟩]
        ["vppcontainer", "vppcontainer"] (st0.log (Call.NetworkNodeOverlayR "ov1")) :=
  ⟨by decide, by decide, by decide,
    (C7_two_workload_endpoints demoEnv svcA connCrossHost 0 st0 "podX/eth0" "podW/eth0"
      ⟨"podX", "node1"⟩ ⟨"podW", "node2"⟩ ⟨"eth0", "veth", ""⟩ ⟨"eth0", "veth", ""⟩
      "vppcontainer" "vppcontainer" rfl rfl rfl (by decide) (by decide) (by decide)
      (by decide)).2.2.2 ⟨⟨"ov1"⟩, ⟨"vxlan", "mesh"⟩⟩ (by decide) (by decide) (by decide)⟩

/-- C8 (witness): the two memif interfaces of `podX`, with the default method. -/
theorem C8_loopback_two_xconnects_witness :
    getIf ifsLoopback 0 = some ⟨"memif0", "memif", "podX"⟩ ∧
    getIf ifsLoopback 1 = some ⟨"memif1", "memif", "podX"⟩ ∧
    (renderConnL2PPSameNode demoEnv svcA "node1" (connMemif "") ifsLoopback
      ["vppcontainer", "vppcontainer"] st0).st.world.RenderedVppAgentEntries =
      [("NetworkService/svcA", KVType.xconnect "podX" "memif0" "memif1"),
        ("NetworkService/svcA", KVType.xconnect "podX" "memif1" "memif0")] :=
  ⟨by decide, by decide,
    congrArg (fun r : Result => r.st.world.RenderedVppAgentEntries)
      (C8_loopback_two_xconnects demoEnv svcA "node1" (connMemif "") ifsLoopback
        ["vppcontainer", "vppcontainer"] st0 ⟨"memif0", "memif", "podX"⟩
        ⟨"memif1", "memif", "podX"⟩ (by decide) (by decide) (by decide) (by decide))⟩

/-- C9 (witness): two memif interfaces of two pods with the default method. -/
theorem C9_direct_branch_iff_witness :
    getIf ifsMemif 0 = some ⟨"memif0", "memif", "podX"⟩ ∧
    getIf ifsMemif 1 = some ⟨"memif0", "memif", "podY"⟩ ∧
    callsSince st0 (renderConnL2PPSameNode demoEnv svcA "node1" (connMemif "") ifsMemif
      ["vppcontainer", "vppcontainer"] st0) =
      [Call.renderConnL2PPSameNode "node1" ifsMemif ["vppcontainer", "vppcontainer"],
        Call.RenderConnDirectInterPodMemifPair ifsMemif IfTypeMemif] :=
  ⟨by decide, by decide,
    ((C9_direct_branch_iff demoEnv svcA "node1" (connMemif "") ifsMemif
      ["vppcontainer", "vppcontainer"] st0 ⟨"memif0", "memif", "podX"⟩
      ⟨"memif0", "memif", "podY"⟩ (by decide) (by decide) (by decide)).1
      (by decide)).1⟩

/-- C10 (witness): two memif interfaces that both hold the identifier 5, rendered through
the switch. -/
theorem C10_memif_reset_in_switch_branch_witness :
    getState stMemif5.world.InterfaceStates "podX/memif0" = some ⟨5⟩ ∧
    getState stMemif5.world.InterfaceStates "podY/memif0" = some ⟨5⟩ ∧
    ∃ st2 : St,
      renderConnL2PPSameNode demoEnv svcA "node1" (connMemif "vswitch") ifsMemif
          ["vppcontainer", "vppcontainer"] stMemif5 =
        switchXConnects demoEnv svcA "node1" (connMemif "vswitch") ifsMemif
          ["vppcontainer", "vppcontainer"] st2 ∧
      getState st2.world.InterfaceStates "podX/memif0" = some ⟨0⟩ ∧
      getState st2.world.InterfaceStates "podY/memif0" = some ⟨0⟩ := by
  refine ⟨by decide, by decide, ?_⟩
  obtain ⟨st2, h1, _, _, _, h2, h3⟩ :=
    (C10_memif_reset_in_switch_branch demoEnv svcA "node1" (connMemif "vswitch") ifsMemif
      ["vppcontainer", "vppcontainer"] stMemif5 ⟨"memif0", "memif", "podX"⟩
      ⟨"memif0", "memif", "podY"⟩ (by decide) (by decide) (by decide) (by decide)
      (by decide)).2 (by decide) (by decide) ⟨5⟩ ⟨5⟩ (by decide) (by decide) rfl
  exact ⟨st2, h1, h2, h3⟩

/-! ## Status messages of the resolution stages -/

theorem Extends.nil (st : St) : Extends st st ⟨[], [], []⟩ := by
  simp [Extends]

/-- The interface loop when both creations succeed. -/
theorem interfacePairLoop_two_ok (env : Env) (ns : NetworkService) (conn : Connection)
    (hostOf : Nat → String) (ifs : List (Option Interface)) (types : List String) (st : St)
    (p0 p1 : Option Interface) (t0 t1 n0 n1 : String) (w1 w2 : World)
    (h0 : ifs.get? 0 = some p0) (h1 : ifs.get? 1 = some p1)
    (ht0 : types.get? 0 = some t0) (ht1 : types.get? 1 = some t1)
    (hc0 : env.RenderConnInterfacePair st.world ns (hostOf 0) conn p0 t0 = (Except.ok n0, w1))
    (hc1 : env.RenderConnInterfacePair w1 ns (hostOf 1) conn p1 t1 = (Except.ok n1, w2)) :
    interfacePairLoop env ns conn hostOf ifs types [0, 1] ["", ""] st =
      (Except.ok [n0, n1],
        ⟨w2, st.trace ++
          [Call.RenderConnInterfacePair (hostOf 0) p0 t0,
            Call.RenderConnInterfacePair (hostOf 1) p1 t1]⟩) := by
  simp only [List.get?_eq_getElem?] at h0 h1 ht0 ht1
  simp [interfacePairLoop, h0, h1, ht0, ht1, St.log, hc0, hc1]

/-- The cross-connect loop on two interface names. -/
theorem xconnLoop_pair (env : Env) (ns : NetworkService) (vppAgent : String)
    (n0 n1 : String) (st : St) :
    xconnLoop env ns vppAgent [n0, n1] [0, 1] st =
      ⟨Outcome.ok,
        { world :=
            { st.world with
              RenderedVppAgentEntries :=
                st.world.RenderedVppAgentEntries ++
                  [(env.ModelTypeNetworkService ++ "/" ++ ns.Metadata.Name,
                      ConstructXConnect vppAgent n0 n1),
                    (env.ModelTypeNetworkService ++ "/" ++ ns.Metadata.Name,
                      ConstructXConnect vppAgent n1 n0)] },
          trace :=
            st.trace ++
              [Call.RenderTxnAddVppEntriesToTxn
                  (env.ModelTypeNetworkService ++ "/" ++ ns.Metadata.Name)
                  (ConstructXConnect vppAgent n0 n1),
                Call.RenderTxnAddVppEntriesToTxn
                  (env.ModelTypeNetworkService ++ "/" ++ ns.Metadata.Name)
                  (ConstructXConnect vppAgent n1 n0)] }⟩ := by
  simp [xconnLoop, notAnd1_zero, notAnd1_one, RenderTxnAddVppEntriesToTxn]

theorem getIf_of_get? (ifs : List (Option Interface)) (i : Nat) (a : Interface)
    (h : ifs.get? i = some (some a)) : getIf ifs i = some a := by
  simp only [List.get?_eq_getElem?] at h
  simp [getIf, h]

/-- C11: in the switch branch of `renderConnL2PPSameNode`, when the creation for endpoint
0 and then the creation for endpoint 1 succeed on the shared host with the names `n0` and
`n1`, the call returns nil having logged exactly these two creations in that order and
then appended `XConnect(host, n0, n1)` and `XConnect(host, n1, n0)` under the key of the
service to the world the creations left. -/
theorem C11_switch_branch_creates_two_and_cross_connects (env : Env) (ns : NetworkService)
    (vppAgent : String) (conn : Connection) (ifs : List (Option Interface))
    (types : List String) (st : St) (a b : Interface) (t0 t1 n0 n1 : String)
    (w1 w2 : World)
    (h0 : ifs.get? 0 = some (some a)) (h1 : ifs.get? 1 = some (some b))
    (ht0 : types.get? 0 = some t0) (ht1 : types.get? 1 = some t1)
    (hnl : ¬ (a.Parent = b.Parent ∧ a.Name ≠ b.Name))
    (hnd : ¬ (a.IfType = IfTypeMemif ∧ b.IfType = IfTypeMemif ∧
      (conn.ConnMethod = "" ∨ conn.ConnMethod = ConnMethodDirect)))
    (hc0 : env.RenderConnInterfacePair
      (memifIDCheck a b (st.log (Call.renderConnL2PPSameNode vppAgent ifs types))).world
      ns vppAgent conn (some a) t0 = (Except.ok n0, w1))
    (hc1 : env.RenderConnInterfacePair w1 ns vppAgent conn (some b) t1 =
      (Except.ok n1, w2)) :
    renderConnL2PPSameNode env ns vppAgent conn ifs types st =
      ⟨Outcome.ok,
        { world :=
            { w2 with
              RenderedVppAgentEntries :=
                w2.RenderedVppAgentEntries ++
                  [(env.ModelTypeNetworkService ++ "/" ++ ns.Metadata.Name,
                      ConstructXConnect vppAgent n0 n1),
                    (env.ModelTypeNetworkService ++ "/" ++ ns.Metadata.Name,
                      ConstructXConnect vppAgent n1 n0)] },
          trace :=
            st.trace ++
              [Call.renderConnL2PPSameNode vppAgent ifs types,
                Call.RenderConnInterfacePair vppAgent (some a) t0,
                Call.RenderConnInterfacePair vppAgent (some b) t1,
                Call.RenderTxnAddVppEntriesToTxn
                  (env.ModelTypeNetworkService ++ "/" ++ ns.Metadata.Name)
                  (ConstructXConnect vppAgent n0 n1),
                Call.RenderTxnAddVppEntriesToTxn
                  (env.ModelTypeNetworkService ++ "/" ++ ns.Metadata.Name)
                  (ConstructXConnect vppAgent n1 n0)] }⟩ := by
  rw [renderConnL2PPSameNode_switch env ns vppAgent conn ifs types st a b
    (getIf_of_get? ifs 0 a h0) (getIf_of_get? ifs 1 b h1) hnl hnd]
  unfold switchXConnects
  rw [interfacePairLoop_two_ok env ns conn (fun _ => vppAgent) ifs types _ (some a) (some b)
    t0 t1 n0 n1 w1 w2 h0 h1 ht0 ht1 hc0 hc1]
  simp only
  rw [xconnLoop_pair]
  simp [memifIDCheck_trace, St.log]

/-- C12: in `renderConnL2PPInterNode`, when the creation for endpoint 0 on its host and
then the creation for endpoint 1 on its host succeed with the names `n0` and `n1` and the
overlay transport is vxlan: with the mesh topology the mesh builder is called once, after
the two creations, with `[[n0, n1], ["", ""]]` as interface names, and its result is the
result; with the hub-and-spoke topology, for a connection of two workload references, the
error for the unsupported topology is returned after one status message is appended, and
the mesh builder is not called. -/
theorem C12_vxlan_mesh_delegates_hub_and_spoke_fails (env : Env) (ns : NetworkService)
    (conn : Connection) (connIndex : Nat) (ifs : List (Option Interface))
    (nno : NetworkNodeOverlay) (p2nArray : List NetworkPodToNodeMap) (types : List String)
    (st : St) (p0 p1 : Option Interface) (t0 t1 n0 n1 : String) (w1 w2 : World)
    (h0 : ifs.get? 0 = some p0) (h1 : ifs.get? 1 = some p1)
    (ht0 : types.get? 0 = some t0) (ht1 : types.get? 1 = some t1)
    (hc0 : env.RenderConnInterfacePair st.world ns (nodeAt p2nArray 0) conn p0 t0 =
      (Except.ok n0, w1))
    (hc1 : env.RenderConnInterfacePair w1 ns (nodeAt p2nArray 1) conn p1 t1 =
      (Except.ok n1, w2))
    (hv : nno.Spec.ConnectionType = NetworkNodeOverlayConnectionTypeVxlan) :
    (nno.Spec.ServiceMeshType = NetworkNodeOverlayTypeMesh →
      renderConnL2PPInterNode env ns conn connIndex ifs nno p2nArray types st =
        ⟨(match (env.renderConnL2PPVxlanMesh w2 nno ns conn connIndex ifs p2nArray
              [[n0, n1], ["", ""]]).1 with
            | some err => Outcome.error err
            | none => Outcome.ok),
          { world := (env.renderConnL2PPVxlanMesh w2 nno ns conn connIndex ifs p2nArray
              [[n0, n1], ["", ""]]).2,
            trace :=
              st.trace ++
                [Call.renderConnL2PPInterNode nno ifs p2nArray types,
                  Call.RenderConnInterfacePair (nodeAt p2nArray 0) p0 t0,
                  Call.RenderConnInterfacePair (nodeAt p2nArray 1) p1 t1,
                  Call.renderConnL2PPVxlanMesh nno ifs p2nArray [[n0, n1], ["", ""]]] }⟩) ∧
    (nno.Spec.ServiceMeshType = NetworkNodeOverlayTypeHubAndSpoke →
      ∀ (pod0 pod1 : String) (rest : List String),
        conn.PodInterfaces = pod0 :: pod1 :: rest →
        renderConnL2PPInterNode env ns conn connIndex ifs nno p2nArray types st =
          ⟨Outcome.error (hubAndSpokeMsg ns connIndex pod0 pod1 nno.Metadata.Name),
            { world :=
                { w2 with
                  statusMsgs :=
                    w2.statusMsgs ++
                      [hubAndSpokeMsg ns connIndex pod0 pod1 nno.Metadata.Name] },
              trace :=
                st.trace ++
                  [Call.renderConnL2PPInterNode nno ifs p2nArray types,
                    Call.RenderConnInterfacePair (nodeAt p2nArray 0) p0 t0,
                    Call.RenderConnInterfacePair (nodeAt p2nArray 1) p1 t1] }⟩) := by
  have hloop := interfacePairLoop_two_ok env ns conn (fun i => nodeAt p2nArray i) ifs types
    (st.log (Call.renderConnL2PPInterNode nno ifs p2nArray types)) p0 p1 t0 t1 n0 n1 w1 w2
    h0 h1 ht0 ht1 hc0 hc1
  constructor
  · intro hm
    unfold renderConnL2PPInterNode
    simp only [hloop]
    simp only [hv, hm, if_true, St.log]
    rcases hb : env.renderConnL2PPVxlanMesh w2 nno ns conn connIndex ifs p2nArray
      [[n0, n1], ["", ""]] with ⟨_ | err, w⟩
    · simp
    · simp
  · intro hh pod0 pod1 rest hpods
    have hne : nno.Spec.ServiceMeshType ≠ NetworkNodeOverlayTypeMesh := by
      rw [hh]; decide
    unfold renderConnL2PPInterNode
    simp only [hloop]
    simp only [hv, hh, hpods, if_true, St.log]
    simp [AppendStatusMsg]
    intro hc
    exact absurd hc (by decide)

/-- C13 (counterexample): with an overlay whose transport is not vxlan, when the first
creation fails `renderConnL2PPInterNode` returns the error of the creation, not the error
for the transport that is not implemented, and appends no status message; the second
creation is not made. -/
theorem C13_counterexample :
    overlayGre.Spec.ConnectionType ≠ NetworkNodeOverlayConnectionTypeVxlan ∧
    renderConnL2PPInterNode demoEnvNoCreate svcA ⟨["podX/eth0", "podW/eth0"], [], [], "ov4", ""⟩
      0 ifsCrossHost overlayGre p2nCrossHost ["vppcontainer", "vppcontainer"] st0 =
      ⟨Outcome.error "creation failed",
        ⟨st0.world,
          [Call.renderConnL2PPInterNode overlayGre ifsCrossHost p2nCrossHost
              ["vppcontainer", "vppcontainer"],
            Call.RenderConnInterfacePair "node1" (some ⟨"eth0", "veth", "podX"⟩)
              "vppcontainer"]⟩⟩ ∧
    (renderConnL2PPInterNode demoEnvNoCreate svcA
      ⟨["podX/eth0", "podW/eth0"], [], [], "ov4", ""⟩ 0 ifsCrossHost overlayGre p2nCrossHost
      ["vppcontainer", "vppcontainer"] st0).st.world.statusMsgs = [] ∧
    (renderConnL2PPInterNode demoEnvNoCreate svcA
      ⟨["podX/eth0", "podW/eth0"], [], [], "ov4", ""⟩ 0 ifsCrossHost overlayGre p2nCrossHost
      ["vppcontainer", "vppcontainer"] st0).outcome ≠
      Outcome.error (notImplementedMsg svcA 0 "podX/eth0" "podW/eth0" "ov4") := by
  decide

/-- C13 (amended): in `renderConnL2PPInterNode`, when both creations succeed and the
overlay transport is not vxlan, for a connection of two workload references the error for
the transport that is not implemented is returned after the two creations, whose effects
stay, and after one status message is appended; the mesh builder is not called. -/
theorem C13_other_transport_not_implemented (env : Env) (ns : NetworkService)
    (conn : Connection) (connIndex : Nat) (ifs : List (Option Interface))
    (nno : NetworkNodeOverlay) (p2nArray : List NetworkPodToNodeMap) (types : List String)
    (st : St) (p0 p1 : Option Interface) (t0 t1 n0 n1 : String) (w1 w2 : World)
    (pod0 pod1 : String) (rest : List String)
    (h0 : ifs.get? 0 = some p0) (h1 : ifs.get? 1 = some p1)
    (ht0 : types.get? 0 = some t0) (ht1 : types.get? 1 = some t1)
    (hc0 : env.RenderConnInterfacePair st.world ns (nodeAt p2nArray 0) conn p0 t0 =
      (Except.ok n0, w1))
    (hc1 : env.RenderConnInterfacePair w1 ns (nodeAt p2nArray 1) conn p1 t1 =
      (Except.ok n1, w2))
    (hpods : conn.PodInterfaces = pod0 :: pod1 :: rest)
    (hv : nno.Spec.ConnectionType ≠ NetworkNodeOverlayConnectionTypeVxlan) :
    renderConnL2PPInterNode env ns conn connIndex ifs nno p2nArray types st =
      ⟨Outcome.error (notImplementedMsg ns connIndex pod0 pod1 nno.Metadata.Name),
        { world :=
            { w2 with
              statusMsgs :=
                w2.statusMsgs ++
                  [notImplementedMsg ns connIndex pod0 pod1 nno.Metadata.Name] },
          trace :=
            st.trace ++
              [Call.renderConnL2PPInterNode nno ifs p2nArray types,
                Call.RenderConnInterfacePair (nodeAt p2nArray 0) p0 t0,
                Call.RenderConnInterfacePair (nodeAt p2nArray 1) p1 t1] }⟩ := by
  have hloop := interfacePairLoop_two_ok env ns conn (fun i => nodeAt p2nArray i) ifs types
    (st.log (Call.renderConnL2PPInterNode nno ifs p2nArray types)) p0 p1 t0 t1 n0 n1 w1 w2
    h0 h1 ht0 ht1 hc0 hc1
  unfold renderConnL2PPInterNode
  simp only [hloop]
  simp only [hv, hpods, if_false, St.log]
  simp [AppendStatusMsg]

/-- C11 (witness): `podX/eth0` and `podY/eth0`, both on `node1`, with veth interfaces. -/
theorem C11_switch_branch_creates_two_and_cross_connects_witness :
    ifsTwoPods.get? 0 = some (some ⟨"eth0", "veth", "podX"⟩) ∧
    ifsTwoPods.get? 1 = some (some ⟨"eth0", "veth", "podY"⟩) ∧
    (renderConnL2PPSameNode demoEnv svcA "node1" connTwoPods ifsTwoPods
      ["vppcontainer", "vppcontainer"] st0).st.world.RenderedVppAgentEntries =
      [("NetworkService/svcA",
          KVType.xconnect "node1" "IF_node1_podX_eth0" "IF_node1_podY_eth0"),
        ("NetworkService/svcA",
          KVType.xconnect "node1" "IF_node1_podY_eth0" "IF_node1_podX_eth0")] :=
  ⟨by decide, by decide,
    congrArg (fun r : Result => r.st.world.RenderedVppAgentEntries)
      (C11_switch_branch_creates_two_and_cross_connects demoEnv svcA "node1" connTwoPods
        ifsTwoPods ["vppcontainer", "vppcontainer"] st0 ⟨"eth0", "veth", "podX"⟩
        ⟨"eth0", "veth", "podY"⟩ "vppcontainer" "vppcontainer" "IF_node1_podX_eth0"
        "IF_node1_podY_eth0" st0.world st0.world (by decide) (by decide) (by decide)
        (by decide) (by decide) (by decide) rfl rfl)⟩

/-- C12 (witness): `podX` on `node1` and `podW` on `node2` over the mesh overlay `ov1`. -/
theorem C12_vxlan_mesh_delegates_hub_and_spoke_fails_witness :
    overlayMesh.Spec.ConnectionType = NetworkNodeOverlayConnectionTypeVxlan ∧
    overlayMesh.Spec.ServiceMeshType = NetworkNodeOverlayTypeMesh ∧
    (renderConnL2PPInterNode demoEnv svcA connCrossHost 0 ifsCrossHost overlayMesh
      p2nCrossHost ["vppcontainer", "vppcontainer"] st0).st.trace =
      [Call.renderConnL2PPInterNode overlayMesh ifsCrossHost p2nCrossHost
          ["vppcontainer", "vppcontainer"],
        Call.RenderConnInterfacePair "node1" (some ⟨"eth0", "veth", "podX"⟩) "vppcontainer",
        Call.RenderConnInterfacePair "node2" (some ⟨"eth0", "veth", "podW"⟩) "vppcontainer",
        Call.renderConnL2PPVxlanMesh overlayMesh ifsCrossHost p2nCrossHost
          [["IF_node1_podX_eth0", "IF_node2_podW_eth0"], ["", ""]]] :=
  ⟨by decide, by decide,
    congrArg (fun r : Result => r.st.trace)
      ((C12_vxlan_mesh_delegates_hub_and_spoke_fails demoEnv svcA connCrossHost 0
        ifsCrossHost overlayMesh p2nCrossHost ["vppcontainer", "vppcontainer"] st0
        (some ⟨"eth0", "veth", "podX"⟩) (some ⟨"eth0", "veth", "podW"⟩) "vppcontainer"
        "vppcontainer" "IF_node1_podX_eth0" "IF_node2_podW_eth0" st0.world st0.world
        (by decide) (by decide) (by decide) (by decide) rfl rfl (by decide)).1
        (by decide))⟩

/-- C13 (witness): the same two pods over an overlay with the transport `gre`. -/
theorem C13_other_transport_not_implemented_witness :
    overlayGre.Spec.ConnectionType ≠ NetworkNodeOverlayConnectionTypeVxlan ∧
    (renderConnL2PPInterNode demoEnv svcA connCrossHost 0 ifsCrossHost overlayGre
      p2nCrossHost ["vppcontainer", "vppcontainer"] st0).outcome =
      Outcome.error (notImplementedMsg svcA 0 "podX/eth0" "podW/eth0" "ov4") :=
  ⟨by decide,
    congrArg Result.outcome
      (C13_other_transport_not_implemented demoEnv svcA connCrossHost 0 ifsCrossHost
        overlayGre p2nCrossHost ["vppcontainer", "vppcontainer"] st0
        (some ⟨"eth0", "veth", "podX"⟩) (some ⟨"eth0", "veth", "podW"⟩) "vppcontainer"
        "vppcontainer" "IF_node1_podX_eth0" "IF_node2_podW_eth0" st0.world st0.world
        "podX/eth0" "podW/eth0" [] (by decide) (by decide) (by decide) (by decide) rfl rfl
        rfl (by decide))⟩

/-- A format without a percent sign is printed as it is. -/
theorem errorfText_of_no_percent (cs : List Char) (h : '%' ∉ cs) :
    errorfText cs = some cs := by
  induction cs with
  | nil => rfl
  | cons c rest ih =>
    have hc : c ≠ '%' := fun hc => h (hc ▸ List.mem_cons_self _ _)
    have hr : '%' ∉ rest := fun hr => h (List.mem_cons_of_mem _ hr)
    unfold errorfText
    simp [hc, ih hr]

/-- C14: the text of a returned error is not always the text of the status message.  For
the service `a%b` and a connection with an unplaced pod, the message appended last is the
placement message with the name `a%b` in it, the error returned is `fmt.Errorf` of that
message used as a format, and its text has `%!b(MISSING)` where the message has `%b`. -/
theorem C14_error_text_differs_from_status_message :
    (RenderConnL2PP demoEnv svcPercent connUnregisteredHost 0 st0).outcome =
      Outcome.error "network-service: a%b, not all pods in this connection are mapped to nodes" ∧
    (RenderConnL2PP demoEnv svcPercent connUnregisteredHost 0 st0).st.world.statusMsgs.getLast? =
      some "network-service: a%b, not all pods in this connection are mapped to nodes" ∧
    errorfText
        "network-service: a%b, not all pods in this connection are mapped to nodes".data =
      some
        "network-service: a%!b(MISSING), not all pods in this connection are mapped to nodes".data ∧
    ("network-service: a%!b(MISSING), not all pods in this connection are mapped to nodes" :
        String) ≠
      "network-service: a%b, not all pods in this connection are mapped to nodes" := by
  decide

/-- C15: an interface that cannot be resolved is dereferenced.  In the deployment a placed
pod has no interface `nosuch` and the host `node1` has none either: both lookups return
no interface, and on either reference `RenderConnL2PP` panics at the assignment of the
parent, with no error returned and no status message appended. -/
theorem C15_unresolved_interface_panics :
    (podPlacement demoEnv "podX/nosuch").isSome = true ∧
    (demoEnv.findNetworkPodAndInterfaceInList (demoEnv.ConnPodInterfaceNames "podX/nosuch").1
      (demoEnv.ConnPodInterfaceNames "podX/nosuch").2).1 = none ∧
    RenderConnL2PP demoEnv svcA ⟨["podX/nosuch", "podY/eth0"], [], [], "", ""⟩ 0 st0 =
      ⟨Outcome.panic, st0⟩ ∧
    (demoEnv.FindInterfaceInNode (demoEnv.NodeInterfaceNames "node1/nosuch").1
      (demoEnv.NodeInterfaceNames "node1/nosuch").2).1 = none ∧
    RenderConnL2PP demoEnv svcA ⟨["podX/eth0"], ["node1/nosuch"], [], "", ""⟩ 0 st0 =
      ⟨Outcome.panic, st0⟩ := by
  decide

/-- C17: a vxlan overlay whose topology is neither mesh nor hub-and-spoke.  Called on the
overlay `ov3` (topology `ring`), `renderConnL2PPInterNode` creates the two interfaces and
returns nil with no call of the mesh builder and no status message; `RenderConnL2PP`
reaches it through the overlay registry and reports success as well.  An overlay whose
topology is left empty is treated the same way. -/
theorem C17_unknown_topology_reports_success :
    (renderConnL2PPInterNode demoEnv svcA ⟨["podX/eth0", "podW/eth0"], [], [], "ov5", ""⟩ 0
      ifsCrossHost overlayNoTopology p2nCrossHost ["vppcontainer", "vppcontainer"]
      st0).outcome = Outcome.ok ∧
    overlayRing.Spec.ConnectionType = NetworkNodeOverlayConnectionTypeVxlan ∧
    overlayRing.Spec.ServiceMeshType ≠ NetworkNodeOverlayTypeMesh ∧
    overlayRing.Spec.ServiceMeshType ≠ NetworkNodeOverlayTypeHubAndSpoke ∧
    renderConnL2PPInterNode demoEnvRing svcA
      ⟨["podX/eth0", "podW/eth0"], [], [], "ov3", ""⟩ 0 ifsCrossHost overlayRing
      p2nCrossHost ["vppcontainer", "vppcontainer"] st0 =
      ⟨Outcome.ok,
        ⟨st0.world,
          [Call.renderConnL2PPInterNode overlayRing ifsCrossHost p2nCrossHost
              ["vppcontainer", "vppcontainer"],
            Call.RenderConnInterfacePair "node1" (some ⟨"eth0", "veth", "podX"⟩)
              "vppcontainer",
            Call.RenderConnInterfacePair "node2" (some ⟨"eth0", "veth", "podW"⟩)
              "vppcontainer"]⟩⟩ ∧
    RenderConnL2PP demoEnvRing svcA ⟨["podX/eth0", "podW/eth0"], [], [], "ov3", ""⟩ 0 st0 =
      ⟨Outcome.ok,
        ⟨st0.world,
          [Call.NetworkNodeOverlayR "ov3",
            Call.renderConnL2PPInterNode overlayRing ifsCrossHost p2nCrossHost
              ["vppcontainer", "vppcontainer"],
            Call.RenderConnInterfacePair "node1" (some ⟨"eth0", "veth", "podX"⟩)
              "vppcontainer",
            Call.RenderConnInterfacePair "node2" (some ⟨"eth0", "veth", "podW"⟩)
              "vppcontainer"]⟩⟩ := by
  decide

/-- The check leaves the states as they are when a state is missing or the identifiers
differ. -/
theorem resetEqualMemifIDs_unchanged (states : List (String × InterfaceStatus))
    (key0 key1 : String)
    (h : getState states key0 = none ∨ getState states key1 = none ∨
      ∃ s0 s1, getState states key0 = some s0 ∧ getState states key1 = some s1 ∧
        s0.MemifID ≠ s1.MemifID) :
    resetEqualMemifIDs states key0 key1 = states := by
  unfold resetEqualMemifIDs
  rcases h with h | h | ⟨s0, s1, h0, h1, hne⟩
  · rw [h]
  · cases h0 : getState states key0 with
    | none => rfl
    | some s0 => simp only [h]
  · simp only [h0, h1, hne, if_false]

/-- The check does not touch the state of any other key. -/
theorem resetEqualMemifIDs_other (states : List (String × InterfaceStatus))
    (key0 key1 k : String) (h0 : k ≠ key0) (h1 : k ≠ key1) :
    getState (resetEqualMemifIDs states key0 key1) k = getState states k := by
  unfold resetEqualMemifIDs
  split
  · split
    · split
      · rw [getState_setMemifID, getState_setMemifID]
        simp [h0, h1]
      · rfl
    · rfl
  · rfl

/-- For two memif interfaces the check acts on the interface states only. -/
theorem memifIDCheck_memif (a b : Interface) (st : St) (ha : a.IfType = IfTypeMemif)
    (hb : b.IfType = IfTypeMemif) :
    memifIDCheck a b st =
      { st with world := { st.world with
          InterfaceStates :=
            resetEqualMemifIDs st.world.InterfaceStates (a.Parent ++ "/" ++ a.Name)
              (b.Parent ++ "/" ++ b.Name) } } := by
  unfold memifIDCheck
  rw [if_pos ⟨ha.trans hb.symm, ha⟩]

/-- C19: the identifier check of the switch branch on two memif endpoints.  When both
states exist, equal identifiers (zero or not) are both 0 afterwards and unequal ones leave
every state as it was, so the two identifiers end up both 0 or different; the state of any
other interface is untouched; when either state is missing nothing is modified; and the
check changes nothing but interface states. -/
theorem C19_memif_identifier_check (a b : Interface) (st : St)
    (ha : a.IfType = IfTypeMemif) (hb : b.IfType = IfTypeMemif) :
    (∀ s0 s1 : InterfaceStatus,
      getState st.world.InterfaceStates (a.Parent ++ "/" ++ a.Name) = some s0 →
      getState st.world.InterfaceStates (b.Parent ++ "/" ++ b.Name) = some s1 →
      (s0.MemifID = s1.MemifID →
        getState (memifIDCheck a b st).world.InterfaceStates (a.Parent ++ "/" ++ a.Name) =
          some ⟨0⟩ ∧
        getState (memifIDCheck a b st).world.InterfaceStates (b.Parent ++ "/" ++ b.Name) =
          some ⟨0⟩) ∧
      (s0.MemifID ≠ s1.MemifID →
        (memifIDCheck a b st).world.InterfaceStates = st.world.InterfaceStates) ∧
      ((getState (memifIDCheck a b st).world.InterfaceStates (a.Parent ++ "/" ++ a.Name) =
          some ⟨0⟩ ∧
        getState (memifIDCheck a b st).world.InterfaceStates (b.Parent ++ "/" ++ b.Name) =
          some ⟨0⟩) ∨
        ∃ t0 t1 : InterfaceStatus,
          getState (memifIDCheck a b st).world.InterfaceStates
            (a.Parent ++ "/" ++ a.Name) = some t0 ∧
          getState (memifIDCheck a b st).world.InterfaceStates
            (b.Parent ++ "/" ++ b.Name) = some t1 ∧
          t0.MemifID ≠ t1.MemifID)) ∧
    (∀ k : String, k ≠ a.Parent ++ "/" ++ a.Name → k ≠ b.Parent ++ "/" ++ b.Name →
      getState (memifIDCheck a b st).world.InterfaceStates k =
        getState st.world.InterfaceStates k) ∧
    (getState st.world.InterfaceStates (a.Parent ++ "/" ++ a.Name) = none ∨
        getState st.world.InterfaceStates (b.Parent ++ "/" ++ b.Name) = none →
      (memifIDCheck a b st).world.InterfaceStates = st.world.InterfaceStates) ∧
    (memifIDCheck a b st).trace = st.trace ∧
    (memifIDCheck a b st).world.statusMsgs = st.world.statusMsgs ∧
    (memifIDCheck a b st).world.RenderedVppAgentEntries =
      st.world.RenderedVppAgentEntries := by
  rw [memifIDCheck_memif a b st ha hb]
  refine ⟨?_, ?_, ?_, rfl, rfl, rfl⟩
  · intro s0 s1 h0 h1
    have heq : s0.MemifID = s1.MemifID →
        getState (resetEqualMemifIDs st.world.InterfaceStates (a.Parent ++ "/" ++ a.Name)
          (b.Parent ++ "/" ++ b.Name)) (a.Parent ++ "/" ++ a.Name) = some ⟨0⟩ ∧
        getState (resetEqualMemifIDs st.world.InterfaceStates (a.Parent ++ "/" ++ a.Name)
          (b.Parent ++ "/" ++ b.Name)) (b.Parent ++ "/" ++ b.Name) = some ⟨0⟩ :=
      fun h => resetEqualMemifIDs_equal _ _ _ s0 s1 h0 h1 h
    have hne : s0.MemifID ≠ s1.MemifID →
        resetEqualMemifIDs st.world.InterfaceStates (a.Parent ++ "/" ++ a.Name)
          (b.Parent ++ "/" ++ b.Name) = st.world.InterfaceStates :=
      fun h => resetEqualMemifIDs_unchanged _ _ _ (Or.inr (Or.inr ⟨s0, s1, h0, h1, h⟩))
    refine ⟨heq, hne, ?_⟩
    by_cases h : s0.MemifID = s1.MemifID
    · exact Or.inl (heq h)
    · refine Or.inr ⟨s0, s1, ?_, ?_, h⟩
      · show getState (resetEqualMemifIDs _ _ _) _ = _
        rw [hne h]; exact h0
      · show getState (resetEqualMemifIDs _ _ _) _ = _
        rw [hne h]; exact h1
  · intro k hk0 hk1
    exact resetEqualMemifIDs_other _ _ _ k hk0 hk1
  · intro h
    rcases h with h | h
    · exact resetEqualMemifIDs_unchanged _ _ _ (Or.inl h)
    · exact resetEqualMemifIDs_unchanged _ _ _ (Or.inr (Or.inl h))

/-- C19 (witness): the two memif interfaces of `connMemif`, both holding the identifier
5. -/
theorem C19_memif_identifier_check_witness :
    (⟨"memif0", "memif", "podX"⟩ : Interface).IfType = IfTypeMemif ∧
    (⟨"memif0", "memif", "podY"⟩ : Interface).IfType = IfTypeMemif ∧
    getState (memifIDCheck ⟨"memif0", "memif", "podX"⟩ ⟨"memif0", "memif", "podY"⟩
      stMemif5).world.InterfaceStates "podX/memif0" = some ⟨0⟩ ∧
    getState (memifIDCheck ⟨"memif0", "memif", "podX"⟩ ⟨"memif0", "memif", "podY"⟩
      stMemif5).world.InterfaceStates "podY/memif0" = some ⟨0⟩ :=
  ⟨by decide, by decide,
    ((C19_memif_identifier_check ⟨"memif0", "memif", "podX"⟩ ⟨"memif0", "memif", "podY"⟩
      stMemif5 (by decide) (by decide)).1 ⟨5⟩ ⟨5⟩ (by decide) (by decide)).1 rfl⟩

/-- C20: the expression `^i&1`, read as `(^i)&1` with the bitwise operations on integers,
is 1 for `i = 0` and 0 for `i = 1`, that is `1 - i`; for every `i` it is `(i + 1) % 2`, so
below 2; and in a two-element array it selects the other element. -/
theorem C20_opposite_index :
    (∀ i : Nat, notAnd1 i = Int.toNat (Int.land (Int.not (Int.ofNat i)) 1)) ∧
    notAnd1 0 = 1 - 0 ∧ notAnd1 1 = 1 - 1 ∧
    (∀ i : Nat, notAnd1 i = (i + 1) % 2 ∧ notAnd1 i < 2) ∧
    (∀ (α : Type) (x0 x1 : α),
      [x0, x1].get? (notAnd1 0) = some x1 ∧ [x0, x1].get? (notAnd1 1) = some x0) := by
  refine ⟨notAnd1_eq_land, by decide, by decide, ?_, ?_⟩
  · intro i
    have h : notAnd1 i = (i + 1) % 2 := by
      unfold notAnd1
      have h2 : (-(Int.ofNat i) - 1) % 2 = ((i + 1) % 2 : Nat) := by
        simp only [Int.ofNat_eq_coe]
        omega
      rw [h2]
      rfl
    exact ⟨h, by rw [h]; exact Nat.mod_lt _ (by decide)⟩
  · intro α x0 x1
    rw [notAnd1_zero, notAnd1_one]
    exact ⟨rfl, rfl⟩

end L2PP
